import Mathlib

set_option maxHeartbeats 1600000
set_option maxRecDepth 4096
set_option linter.unusedVariables false

/-!
Verification development for the stock-agent data-retrieval layer.

The three data clients of the repository (market-data client, news client,
historical-series client) are shallowly embedded here.  JSON values carried by
HTTP responses are modelled by the inductive type Json; Python dictionaries
returned by the client functions are modelled as Json objects (association
lists in insertion order).  Python runtime errors (AttributeError, TypeError,
ValueError, KeyError, JSON decode errors, transport errors) are modelled by
the Except String monad; the try/except blocks of the source catch these at
the function boundary and convert them into error envelopes, exactly as the
code does.  Machine floating point is abstracted by exact decimal numbers
(an integer mantissa with a decimal exponent, semantics given by
PFloat.toRat); every numeric value these functions handle comes from decimal
text, and the two arithmetic operations the code performs on floats
(division by a power of ten, two-decimal formatting) are exact on this
representation.  The two-decimal formatting of the source is modelled by
round-half-even decimal rounding, the rounding Python %.2f formatting
applies.
-/

/-- an exact decimal number: the value is m times 10 to the power e.  This
models the Python floats handled by the client functions, all of which are
obtained from decimal text. -/
structure PFloat where
  m : ℤ
  e : ℤ
deriving DecidableEq, Repr

/-- the rational value of an exact decimal, used to state value-level
properties. -/
def PFloat.toRat (x : PFloat) : ℚ := (x.m : ℚ) * (10 : ℚ) ^ x.e

/-- a JSON value as produced by response.json(); also used for the plain
Python dict/list/str/float values the client functions return. -/
inductive Json where
  | null
  | bool (b : Bool)
  | num (q : PFloat)
  | int (n : ℤ)
  | str (s : String)
  | arr (xs : List Json)
  | obj (kvs : List (String × Json))

/-- an HTTP response as seen by the client code: status code, the JSON body
(none models a body on which response.json() raises), and the raw text used
in some error messages. -/
structure HttpResponse where
  status_code : ℕ
  body : Option Json
  text : String

/-- association-list lookup used for Python dict access; parsed JSON objects
have distinct keys, so first-match lookup agrees with dict lookup. -/
def lookupKV : List (String × Json) → String → Option Json
  | [], _ => none
  | (k, v) :: rest, key => if k = key then some v else lookupKV rest key

/-- a field of a dict-shaped Json value, used to state properties of the
returned envelopes. -/
def jget (j : Json) (key : String) : Option Json :=
  match j with
  | .obj kvs => lookupKV kvs key
  | _ => none

/-- substring occurrence, used to state that an error message contains the
numeric status code and that a report contains a given line. -/
def containsSeg (s seg : String) : Prop :=
  ∃ a b, s.data = a ++ seg.data ++ b

/-- does the character list start with the pattern? -/
def startsWithChars : List Char → List Char → Bool
  | [], _ => true
  | _ :: _, [] => false
  | p :: ps, c :: cs => p == c && startsWithChars ps cs

/-- boolean substring test on character lists (Python in on str). -/
def isInfixChars : List Char → List Char → Bool
  | pat, [] => pat.isEmpty
  | pat, c :: rest => startsWithChars pat (c :: rest) || isInfixChars pat rest

/-- Python membership test key in d.  On a dict it tests the keys, on a list
it tests the elements, on a string it is a substring test; on other values it
raises TypeError. -/
def pyIn (key : String) (d : Json) : Except String Bool :=
  match d with
  | .obj kvs => .ok (kvs.any (fun kv => kv.1 == key))
  | .arr xs => .ok (xs.any (fun j => match j with | .str s => s == key | _ => false))
  | .str s => .ok (isInfixChars key.data s.data)
  | _ => .error "TypeError: argument is not iterable"

/-- Python subscript d[key] with a string key; raises KeyError on a missing
dict key and TypeError on non-dict values. -/
def pyIndexStr (d : Json) (key : String) : Except String Json :=
  match d with
  | .obj kvs =>
    match lookupKV kvs key with
    | some v => .ok v
    | none => .error ("KeyError: " ++ key)
  | _ => .error "TypeError: value is not subscriptable with a string key"

/-- the element count kept by the Python slice l[:limit] on a sequence of
the given length: nonnegative limits keep a prefix, negative limits drop
from the end (truncated subtraction clamps at zero, as in Python). -/
def pySliceIdx (len : ℕ) (limit : ℤ) : ℕ :=
  if 0 ≤ limit then limit.toNat else len - (-limit).toNat

/-- slicing followed by iteration, modelling for x in v[:limit].  Lists
yield their elements; strings yield one-character strings; other values
raise TypeError. -/
def pySliceIter (v : Json) (limit : ℤ) : Except String (List Json) :=
  match v with
  | .arr xs => .ok (xs.take (pySliceIdx xs.length limit))
  | .str s => .ok ((s.data.take (pySliceIdx s.data.length limit)).map (fun c => Json.str (String.mk [c])))
  | _ => .error "TypeError: value is not subscriptable"

/-- Python d.get(key, default); raises AttributeError when the receiver is
not a dict. -/
def pyGet (d : Json) (key : String) (dflt : Json) : Except String Json :=
  match d with
  | .obj kvs => .ok ((lookupKV kvs key).getD dflt)
  | _ => .error "AttributeError: value has no attribute get"

/-- fuel-indexed replacement of every non-overlapping occurrence of pat by
sub, scanning left to right (the semantics of Python str.replace). -/
def replFuel : ℕ → List Char → List Char → List Char → List Char
  | 0, s, _, _ => s
  | _ + 1, [], _, _ => []
  | n + 1, c :: rest, pat, sub =>
    if startsWithChars pat (c :: rest) && !pat.isEmpty then
      sub ++ replFuel n (List.drop (pat.length - 1) rest) pat sub
    else
      c :: replFuel n rest pat sub

/-- Python s.replace(pat, sub) on strings. -/
def pyStrReplace (s pat sub : String) : String :=
  String.mk (replFuel s.data.length s.data pat.data sub.data)

/-- Python v.replace(pat, sub): only strings carry the method; any other
value raises AttributeError. -/
def pyReplaceStr (v : Json) (pat sub : String) : Except String String :=
  match v with
  | .str s => .ok (pyStrReplace s pat sub)
  | _ => .error "AttributeError: value has no attribute replace"

/-- decimal digit test. -/
def isDigitB (c : Char) : Bool := c.isDigit

/-- whitespace stripping at both ends, as Python float() and int() apply to
their string argument. -/
def pyStripWS (l : List Char) : List Char :=
  ((l.dropWhile (fun c => c.isWhitespace)).reverse.dropWhile (fun c => c.isWhitespace)).reverse

/-- numeric value of a list of decimal digits. -/
def digitsVal (l : List Char) : ℕ :=
  l.foldl (fun a c => a * 10 + (c.toNat - 48)) 0

/-- optional exponent suffix of a Python float literal: empty means exponent
zero, e or E followed by an optionally signed digit string gives that
exponent, anything else is a parse failure. -/
def parseExp (l : List Char) : Option ℤ :=
  match l with
  | [] => some 0
  | c :: rest =>
    if c = 'e' ∨ c = 'E' then
      match rest with
      | '+' :: ds => if ds ≠ [] ∧ ds.all isDigitB then some (digitsVal ds) else none
      | '-' :: ds => if ds ≠ [] ∧ ds.all isDigitB then some (-(digitsVal ds : ℤ)) else none
      | ds => if ds ≠ [] ∧ ds.all isDigitB then some (digitsVal ds) else none
    else none

/-- unsigned Python float literal: digits, an optional fractional part, an
optional exponent; at least one digit must be present.  The mantissa
collects integer and fractional digits, the exponent accounts for the
fractional length and the explicit exponent. -/
def parseUFloat (l : List Char) : Option PFloat :=
  let ip := l.takeWhile isDigitB
  let rest := l.dropWhile isDigitB
  match rest with
  | '.' :: r2 =>
    let fp := r2.takeWhile isDigitB
    let r3 := r2.dropWhile isDigitB
    if ip = [] ∧ fp = [] then none
    else (parseExp r3).map (fun e =>
      ⟨(digitsVal ip * 10 ^ fp.length + digitsVal fp : ℕ), e - fp.length⟩)
  | _ =>
    if ip = [] then none
    else (parseExp rest).map (fun e => ⟨(digitsVal ip : ℕ), e⟩)

/-- optionally signed Python float literal. -/
def pyFloatOfChars (l : List Char) : Option PFloat :=
  match l with
  | '+' :: r => parseUFloat r
  | '-' :: r => (parseUFloat r).map (fun x => ⟨-x.m, x.e⟩)
  | r => parseUFloat r

/-- Python float(s) on a string: whitespace is stripped, then a float
literal is parsed; failure raises ValueError. -/
def pyFloatStr (s : String) : Except String PFloat :=
  match pyFloatOfChars (pyStripWS s.data) with
  | some q => .ok q
  | none => .error ("ValueError: could not convert string to float: " ++ s)

/-- Python float(v) on a JSON value: numbers pass through, strings are
parsed, booleans coerce, anything else raises TypeError. -/
def pyFloat (v : Json) : Except String PFloat :=
  match v with
  | .num q => .ok q
  | .int n => .ok ⟨n, 0⟩
  | .str s => pyFloatStr s
  | .bool b => .ok (if b then ⟨1, 0⟩ else ⟨0, 0⟩)
  | _ => .error "TypeError: float argument must be a string or a number"

/-- optionally signed Python int literal. -/
def pyIntChars (l : List Char) : Option ℤ :=
  match l with
  | '+' :: ds => if ds ≠ [] ∧ ds.all isDigitB then some (digitsVal ds) else none
  | '-' :: ds => if ds ≠ [] ∧ ds.all isDigitB then some (-(digitsVal ds : ℤ)) else none
  | ds => if ds ≠ [] ∧ ds.all isDigitB then some (digitsVal ds) else none

/-- Python int(s) on a string. -/
def pyIntStr (s : String) : Except String ℤ :=
  match pyIntChars (pyStripWS s.data) with
  | some n => .ok n
  | none => .error ("ValueError: invalid literal for int with base 10: " ++ s)

/-- truncation of an exact decimal toward zero, matching Python int(float). -/
def PFloat.trunc (x : PFloat) : ℤ :=
  if 0 ≤ x.e then x.m * (10 : ℤ) ^ x.e.toNat
  else Int.tdiv x.m ((10 : ℤ) ^ (-x.e).toNat)

/-- Python int(v) on a JSON value. -/
def pyInt (v : Json) : Except String ℤ :=
  match v with
  | .num q => .ok q.trunc
  | .int n => .ok n
  | .str s => pyIntStr s
  | .bool b => .ok (if b then 1 else 0)
  | _ => .error "TypeError: int argument must be a string or a number"

/-- exact division of a float by 10 to the k, the only float division the
client code performs (market cap divided by 1e9). -/
def PFloat.divPow10 (x : PFloat) (k : ℕ) : PFloat := ⟨x.m, x.e - k⟩

/-- sign test used by the report formatting (plus sign for nonnegative
changes); the sign of the value is the sign of the mantissa. -/
def PFloat.nonneg (x : PFloat) : Bool := decide (0 ≤ x.m)

/-- the integer nearest to 100 times the value, ties going to the even
integer: the rounding that the %.2f formatting of the source applies. -/
def PFloat.roundAt2 (x : PFloat) : ℤ :=
  let e2 := x.e + 2
  if 0 ≤ e2 then x.m * (10 : ℤ) ^ e2.toNat
  else
    let d : ℤ := (10 : ℤ) ^ (-e2).toNat
    let q := Int.ediv x.m d
    let r := Int.emod x.m d
    if 2 * r < d then q
    else if d < 2 * r then q + 1
    else if q % 2 = 0 then q else q + 1

/-- decimal digits of a natural number, left-padded with zeros to at least
k + 1 digits. -/
def natPadded (m k : ℕ) : List Char :=
  let l := (toString m).data
  List.replicate (k + 1 - l.length) '0' ++ l

/-- rendering of a float with exactly two decimal places, modelling the
%.2f format specifier of the report lines. -/
def format2f (x : PFloat) : String :=
  let r := x.roundAt2
  let l := natPadded r.natAbs 2
  (if r < 0 then "-" else "") ++ String.mk (l.take (l.length - 2)) ++ "." ++ String.mk (l.drop (l.length - 2))

/-- removal of trailing zero digits from a mantissa (fuel-indexed). -/
def stripZeros : ℕ → ℤ → ℤ → ℤ × ℤ
  | 0, m, e => (m, e)
  | n + 1, m, e => if m ≠ 0 ∧ m % 10 = 0 then stripZeros n (Int.ediv m 10) (e + 1) else (m, e)

/-- rendering of a float as Python str() does for the values handled here:
minimal decimal digits, always at least one digit after the point.  The
shortest-roundtrip repr of binary floats is abstracted by exact decimal
rendering. -/
def floatRepr (x : PFloat) : String :=
  if x.m = 0 then "0.0"
  else
    let p := stripZeros 40 x.m x.e
    let sign := if p.1 < 0 then "-" else ""
    if 0 ≤ p.2 then sign ++ toString (p.1.natAbs * 10 ^ p.2.toNat) ++ ".0"
    else
      let k := (-p.2).toNat
      let l := natPadded p.1.natAbs k
      sign ++ String.mk (l.take (l.length - k)) ++ "." ++ String.mk (l.drop (l.length - k))

/-- rendering of an integer with thousands separators, modelling the
Python format specifier with comma grouping used for the volume line. -/
def chunk3 : List Char → List (List Char)
  | [] => []
  | a :: b :: c :: d :: rest => [a, b, c] :: chunk3 (d :: rest)
  | l => [l]

/-- Python f-string rendering of an int with comma grouping. -/
def intGrouped (n : ℤ) : String :=
  let rev := (toString n.natAbs).data.reverse
  (if n < 0 then "-" else "") ++ String.mk ((List.intercalate [','] (chunk3 rev)).reverse)

deriving instance DecidableEq for Except

/-- Python str() rendering of a value interpolated into an f-string.  The
rendering of nested containers is abstracted (no claim depends on it); all
values actually interpolated by the reports are scalars. -/
def pyStrJson : Json → String
  | .null => "None"
  | .bool b => if b then "True" else "False"
  | .num q => floatRepr q
  | .int n => toString n
  | .str s => s
  | .arr _ => "[...]"
  | .obj _ => "\x7b...\x7d"

/-- sequential conversion of list elements, aborting at the first raised
error: the effect of a Python for-loop that appends converted entries. -/
def mapE (f : Json → Except String Json) : List Json → Except String (List Json)
  | [] => .ok []
  | a :: rest =>
    match f a with
    | .error e => .error e
    | .ok b =>
      match mapE f rest with
      | .error e => .error e
      | .ok bs => .ok (b :: bs)

/-- the error envelope every client function returns on failure. -/
def errEnv (m : String) : Json :=
  .obj [("status", .str "error"), ("error_message", .str m)]

/-- the API key read from the environment, defaulting to the demo key when
the variable is unset (the environment is modelled as unset). -/
def ALPHA_VANTAGE_API_KEY : String := "demo"

/-- value of stock.get(key, default).replace(pat, empty) passed to float(),
the conversion applied to the price, change and percentage fields of each
movers entry. -/
def getReplFloat (stock : Json) (key dflt pat : String) : Except String PFloat :=
  match pyGet stock key (.str dflt) with
  | .error e => .error e
  | .ok v =>
    match pyReplaceStr v pat "" with
    | .error e => .error e
    | .ok s => pyFloatStr s

/-- value of stock.get(key, default).replace(pat, empty) passed to int(),
the conversion applied to the volume field of each movers entry. -/
def getReplInt (stock : Json) (key dflt pat : String) : Except String ℤ :=
  match pyGet stock key (.str dflt) with
  | .error e => .error e
  | .ok v =>
    match pyReplaceStr v pat "" with
    | .error e => .error e
    | .ok s => pyIntStr s

/-- conversion of one movers entry into the structured record built by
get_market_movers: symbol and name via get with empty default, price and
change with every dollar sign removed, change_percent with every percent
sign removed, volume with every comma removed. -/
def convMover (stock : Json) : Except String Json :=
  match pyGet stock "ticker" (.str "") with
  | .error e => .error e
  | .ok sym =>
    match pyGet stock "name" (.str "") with
    | .error e => .error e
    | .ok name =>
      match getReplFloat stock "price" "0" "$" with
      | .error e => .error e
      | .ok price =>
        match getReplFloat stock "change_amount" "0" "$" with
        | .error e => .error e
        | .ok change =>
          match getReplFloat stock "change_percentage" "0%" "%" with
          | .error e => .error e
          | .ok cp =>
            match getReplInt stock "volume" "0" "," with
            | .error e => .error e
            | .ok vol =>
              .ok (Json.obj [("symbol", sym), ("name", name), ("price", .num price),
                ("change", .num change), ("change_percent", .num cp), ("volume", .int vol)])

/-- processing of one side of the movers payload: when the key is present
the value is sliced to the limit and each entry converted; when absent the
side is the empty list. -/
def processSide (data : Json) (key : String) (limit : ℤ) : Except String (List Json) :=
  match pyIn key data with
  | .error e => .error e
  | .ok false => .ok []
  | .ok true =>
    match pyIndexStr data key with
    | .error e => .error e
    | .ok v =>
      match pySliceIter v limit with
      | .error e => .error e
      | .ok items => mapE convMover items

/-- field of a constructed movers record interpolated into the report; the
records always carry the field. -/
def moverEntryStr (stock : Json) (key : String) : String :=
  pyStrJson ((jget stock key).getD .null)

/-- one numbered line of the gainers report (plus sign prefix). -/
def gainerLine (idx : ℕ) (stock : Json) : String :=
  toString idx ++ ". " ++ moverEntryStr stock "symbol" ++ " (" ++ moverEntryStr stock "name"
    ++ "): +" ++ moverEntryStr stock "change_percent" ++ "%, $" ++ moverEntryStr stock "price" ++ "\n"

/-- one numbered line of the losers report. -/
def loserLine (idx : ℕ) (stock : Json) : String :=
  toString idx ++ ". " ++ moverEntryStr stock "symbol" ++ " (" ++ moverEntryStr stock "name"
    ++ "): " ++ moverEntryStr stock "change_percent" ++ "%, $" ++ moverEntryStr stock "price" ++ "\n"

/-- enumerate(list, start) driving the numbered report lines. -/
def enumLines (f : ℕ → Json → String) : ℕ → List Json → String
  | _, [] => ""
  | i, s :: rest => f i s ++ enumLines f (i + 1) rest

/-- the full movers report: numbered gainers with plus prefix, then
numbered losers. -/
def moversReport (gainers losers : List Json) : String :=
  ("Top Gainers:\n" ++ enumLines gainerLine 1 gainers)
    ++ ("\nTop Losers:\n" ++ enumLines loserLine 1 losers)

/-- the success envelope of get_market_movers. -/
def moversSuccess (gainers losers : List Json) (lastU : Json) : Json :=
  .obj [("status", .str "success"), ("report", .str (moversReport gainers losers)),
    ("gainers", .arr gainers), ("losers", .arr losers), ("last_updated", lastU)]

/-- body of the try block of get_market_movers after the status check: JSON
decoding, the two sides, and the last_updated lookup. -/
def marketMoversBody (limit : ℤ) (resp : HttpResponse) : Except String Json :=
  match resp.body with
  | none => .error "JSONDecodeError: response body is not valid JSON"
  | some data =>
    match processSide data "top_gainers" limit with
    | .error e => .error e
    | .ok gainers =>
      match processSide data "top_losers" limit with
      | .error e => .error e
      | .ok losers =>
        match pyGet data "last_updated" (.str "Unknown") with
        | .error e => .error e
        | .ok lastU => .ok (moversSuccess gainers losers lastU)

/-- the get_market_movers client function.  The single upstream interaction
is passed in: an error value models requests.get raising, a response value
models the returned HTTP response.  Every raised error is caught by the
except clause and converted into an error envelope. -/
def get_market_movers (limit : ℤ) (net : Except String HttpResponse) : Json :=
  match net with
  | .error e => errEnv ("Failed to retrieve market movers: " ++ e)
  | .ok resp =>
    if resp.status_code ≠ 200 then
      errEnv ("API request failed with status code " ++ toString resp.status_code)
    else
      match marketMoversBody limit resp with
      | .ok env => env
      | .error e => errEnv ("Failed to retrieve market movers: " ++ e)

/-- an atom of the Python topics argument: None or a string. -/
inductive PyAtom where
  | none
  | str (s : String)
deriving DecidableEq, Repr

/-- the Python topics argument of get_stock_news: None, a string, or a list
of atoms.  The declared default of the source is the list containing only
None. -/
inductive PyVal where
  | atom (a : PyAtom)
  | list (xs : List PyAtom)
deriving DecidableEq, Repr

/-- the default value of the topics argument in the source: a list whose
single element is None. -/
def newsTopicsDefault : PyVal := .list [.none]

/-- Python truthiness of the topics argument, deciding whether the topics
query parameter is appended. -/
def pyTruthy : PyVal → Bool
  | .atom .none => false
  | .atom (.str s) => !s.isEmpty
  | .list xs => !xs.isEmpty

/-- Python repr() of a topics atom, used when a list is interpolated. -/
def pyAtomRepr : PyAtom → String
  | .none => "None"
  | .str s => "\x27" ++ s ++ "\x27"

/-- Python str() of the topics argument, the rendering interpolated into
the query URL. -/
def pyStr : PyVal → String
  | .atom .none => "None"
  | .atom (.str s) => s
  | .list xs => "[" ++ String.intercalate ", " (xs.map pyAtomRepr) ++ "]"

/-- the topics argument as it is stored in the returned envelope. -/
def pyValJson : PyVal → Json
  | .atom .none => .null
  | .atom (.str s) => .str s
  | .list xs => .arr (xs.map (fun a => match a with | .none => Json.null | .str s => Json.str s))

/-- ASCII upper-casing of the ticker, modelling Python str.upper on ticker
symbols. -/
def pyUpper (s : String) : String := String.mk (s.data.map Char.toUpper)

/-- the news query URL built by get_stock_news: ticker upper-cased, the
limit, the API key, and the topics parameter appended exactly when the
topics argument is truthy (interpolated with str()). -/
def newsQueryUrl (ticker : String) (limit : ℤ) (topics : PyVal) : String :=
  let base := "https://www.alphavantage.co/query?function=NEWS_SENTIMENT&tickers="
    ++ pyUpper ticker ++ "&limit=" ++ toString limit ++ "&apikey=" ++ ALPHA_VANTAGE_API_KEY
  if pyTruthy topics then base ++ "&topics=" ++ pyStr topics else base

/-- the earnings news query URL built by get_earnings_call_news_highlights:
the topics parameter is hard-pinned to earnings. -/
def earningsQueryUrl (ticker : String) (limit : ℤ) : String :=
  "https://www.alphavantage.co/query?function=NEWS_SENTIMENT&tickers="
    ++ pyUpper ticker ++ "&topics=earnings&limit=" ++ toString limit
    ++ "&apikey=" ++ ALPHA_VANTAGE_API_KEY

/-- conversion of one feed entry into a NewsArticle record, with the
explicit fallback text of the source for each missing field. -/
def newsArticle (article : Json) : Except String Json :=
  match pyGet article "title" (.str "No Title Available") with
  | .error e => .error e
  | .ok title =>
    match pyGet article "url" (.str "#") with
    | .error e => .error e
    | .ok url =>
      match pyGet article "source" (.str "Unknown Source") with
      | .error e => .error e
      | .ok source =>
        match pyGet article "summary" (.str "No summary available.") with
        | .error e => .error e
        | .ok summary =>
          match pyGet article "time_published" (.str "Unknown Time") with
          | .error e => .error e
          | .ok tp => .ok (Json.obj [("title", title), ("url", url), ("source", source),
              ("summary", summary), ("time_published", tp)])

/-- extraction of the article list: the feed is mapped only when the key is
present and the value is a list, exactly as the isinstance guard of the
source; a present non-list feed leaves the articles empty. -/
def newsFeedArticles (data : Json) : Except String (List Json) :=
  match pyIn "feed" data with
  | .error e => .error e
  | .ok false => .ok []
  | .ok true =>
    match pyIndexStr data "feed" with
    | .error e => .error e
    | .ok (Json.arr xs) => mapE newsArticle xs
    | .ok _ => .ok []

/-- the get_stock_news client function.  The single upstream interaction is
passed in; a transport raise hits the RequestException handler, every other
raise hits the generic handler. -/
def get_stock_news (ticker : String) (limit : ℤ) (topics : PyVal)
    (net : Except String HttpResponse) : Json :=
  match net with
  | .error e => errEnv ("Request error fetching news for " ++ ticker ++ ": " ++ e)
  | .ok resp =>
    if resp.status_code ≠ 200 then
      errEnv ("API request failed with status code " ++ toString resp.status_code
        ++ ". Response: " ++ resp.text)
    else
      match resp.body with
      | none => errEnv ("Failed to retrieve news for " ++ ticker
          ++ ": JSONDecodeError: response body is not valid JSON")
      | some data =>
        match newsFeedArticles data with
        | .error e => errEnv ("Failed to retrieve news for " ++ ticker ++ ": " ++ e)
        | .ok arts => Json.obj [("status", .str "success"), ("ticker", .str (pyUpper ticker)),
            ("articles", .arr arts), ("topics", pyValJson topics)]

/-- the error envelope of get_earnings_call_news_highlights, which also
carries the upper-cased ticker. -/
def errEnvTicker (ticker m : String) : Json :=
  .obj [("status", .str "error"), ("ticker", .str (pyUpper ticker)), ("error_message", .str m)]

/-- the get_earnings_call_news_highlights client function: identical feed
handling, topics pinned to earnings, ticker echoed in error envelopes too,
and a clarifying note in the success envelope. -/
def get_earnings_call_news_highlights (ticker : String) (limit : ℤ)
    (net : Except String HttpResponse) : Json :=
  match net with
  | .error e => errEnvTicker ticker ("Request error fetching earnings news for " ++ ticker ++ ": " ++ e)
  | .ok resp =>
    if resp.status_code ≠ 200 then
      errEnvTicker ticker ("API request failed with status code " ++ toString resp.status_code
        ++ ". Response: " ++ resp.text)
    else
      match resp.body with
      | none => errEnvTicker ticker ("Failed to retrieve earnings news for " ++ ticker
          ++ ": JSONDecodeError: response body is not valid JSON")
      | some data =>
        match newsFeedArticles data with
        | .error e => errEnvTicker ticker ("Failed to retrieve earnings news for " ++ ticker ++ ": " ++ e)
        | .ok arts => Json.obj [("status", .str "success"), ("ticker", .str (pyUpper ticker)),
            ("articles", .arr arts), ("topic_filtered", .str "earnings"),
            ("note", .str "Results show news articles related to earnings calls, not the full transcript text.")]

/-- value of float(qdata.get(key, default)) for a quote field. -/
def getFloatField (d : Json) (key dflt : String) : Except String PFloat :=
  match pyGet d key (.str dflt) with
  | .error e => .error e
  | .ok v => pyFloat v

/-- value of int(qdata.get(key, default)) for the volume field. -/
def getIntField (d : Json) (key dflt : String) : Except String ℤ :=
  match pyGet d key (.str dflt) with
  | .error e => .error e
  | .ok v => pyInt v

/-- the numeric extraction block of get_stock_details: price, previous
close (parsed and discarded, as in the source), change, and change percent
with every percent sign removed before conversion. -/
def parseQuote (qdata : Json) : Except String (PFloat × PFloat × PFloat) :=
  match getFloatField qdata "05. price" "0" with
  | .error e => .error e
  | .ok price =>
    match getFloatField qdata "08. previous close" "0" with
    | .error e => .error e
    | .ok _prev =>
      match getFloatField qdata "09. change" "0" with
      | .error e => .error e
      | .ok change =>
        match pyGet qdata "10. change percent" (.str "0%") with
        | .error e => .error e
        | .ok cpJ =>
          match pyReplaceStr cpJ "%" "" with
          | .error e => .error e
          | .ok cpS =>
            match pyFloatStr cpS with
            | .error e => .error e
            | .ok cp => .ok (price, change, cp)

/-- the report string of get_stock_details, line by line in source order:
header with company name, price, signed change, sector, industry, market
cap re-expressed in billions with two-decimal rounding, the four optional
ratio fields with their N/A defaults, and the comma-grouped volume. -/
def detailsReport (symbol : String) (odata qdata : Json) (price change cp : PFloat) :
    Except String String :=
  match pyGet odata "Name" (.str symbol) with
  | .error e => .error e
  | .ok nameJ =>
    match pyGet odata "Sector" (.str "Unknown") with
    | .error e => .error e
    | .ok sectorJ =>
      match pyGet odata "Industry" (.str "Unknown") with
      | .error e => .error e
      | .ok industryJ =>
        match pyGet odata "MarketCapitalization" (.str "0") with
        | .error e => .error e
        | .ok mcJ =>
          match pyFloat mcJ with
          | .error e => .error e
          | .ok mc =>
            match pyGet odata "PERatio" (.str "N/A") with
            | .error e => .error e
            | .ok peJ =>
              match pyGet odata "DividendYield" (.str "N/A") with
              | .error e => .error e
              | .ok dyJ =>
                match pyGet odata "52WeekHigh" (.str "N/A") with
                | .error e => .error e
                | .ok whJ =>
                  match pyGet odata "52WeekLow" (.str "N/A") with
                  | .error e => .error e
                  | .ok wlJ =>
                    match getIntField qdata "06. volume" "0" with
                    | .error e => .error e
                    | .ok vol =>
                      .ok ("Stock Details for " ++ symbol ++ " (" ++ pyStrJson nameJ ++ "):\n"
                        ++ "Price: $" ++ floatRepr price ++ "\n"
                        ++ "Change: " ++ (if change.nonneg then "+" else "") ++ floatRepr change
                        ++ " (" ++ (if cp.nonneg then "+" else "") ++ floatRepr cp ++ "%)\n"
                        ++ "Sector: " ++ pyStrJson sectorJ ++ "\n"
                        ++ "Industry: " ++ pyStrJson industryJ ++ "\n"
                        ++ "Market Cap: $" ++ format2f (mc.divPow10 9) ++ " billion\n"
                        ++ "P/E Ratio: " ++ pyStrJson peJ ++ "\n"
                        ++ "Dividend Yield: " ++ pyStrJson dyJ ++ "\n"
                        ++ "52-week High: $" ++ pyStrJson whJ ++ "\n"
                        ++ "52-week Low: $" ++ pyStrJson wlJ ++ "\n"
                        ++ "Volume: " ++ intGrouped vol ++ "\n")

/-- the success envelope of get_stock_details. -/
def detailsSuccess (symbol report : String) (nameJ : Json) (price change cp : PFloat)
    (sectorJ industryJ descJ : Json) : Json :=
  .obj [("status", .str "success"), ("report", .str report), ("symbol", .str symbol),
    ("name", nameJ), ("price", .num price), ("change", .num change),
    ("change_percent", .num cp), ("sector", sectorJ), ("industry", industryJ),
    ("description", descJ)]

/-- body of get_stock_details after both status checks: quote JSON
decoding, the Global Quote lookup with empty-dict default, numeric
extraction, report building, and the envelope fields re-read from the
overview. -/
def buildDetails (symbol : String) (odata : Json) (qResp : HttpResponse) : Except String Json :=
  match qResp.body with
  | none => .error "JSONDecodeError: response body is not valid JSON"
  | some qjson =>
    match pyGet qjson "Global Quote" (.obj []) with
    | .error e => .error e
    | .ok qdata =>
      match parseQuote qdata with
      | .error e => .error e
      | .ok (price, change, cp) =>
        match detailsReport symbol odata qdata price change cp with
        | .error e => .error e
        | .ok report =>
          match pyGet odata "Name" (.str symbol) with
          | .error e => .error e
          | .ok nameJ =>
            match pyGet odata "Sector" (.str "Unknown") with
            | .error e => .error e
            | .ok sectorJ =>
              match pyGet odata "Industry" (.str "Unknown") with
              | .error e => .error e
              | .ok industryJ =>
                match pyGet odata "Description" (.str "") with
                | .error e => .error e
                | .ok descJ =>
                  .ok (detailsSuccess symbol report nameJ price change cp sectorJ industryJ descJ)

/-- the get_stock_details client function.  The two upstream interactions
are passed in, in call order; the second component of the result counts the
upstream calls actually issued, so that the short-circuit before the quote
call is observable.  Every raised error is caught and converted into an
error envelope by the single generic except clause of the source. -/
def get_stock_details (symbol : String) (onet qnet : Except String HttpResponse) : Json × ℕ :=
  match onet with
  | .error e => (errEnv ("Failed to retrieve stock details for " ++ symbol ++ ": " ++ e), 1)
  | .ok oResp =>
    if oResp.status_code ≠ 200 then
      (errEnv ("API request failed with status code " ++ toString oResp.status_code), 1)
    else
      match oResp.body with
      | none => (errEnv ("Failed to retrieve stock details for " ++ symbol
          ++ ": JSONDecodeError: response body is not valid JSON"), 1)
      | some odata =>
        match pyIn "Symbol" odata with
        | .error e => (errEnv ("Failed to retrieve stock details for " ++ symbol ++ ": " ++ e), 1)
        | .ok false => (errEnv ("No data found for symbol " ++ symbol), 1)
        | .ok true =>
          match qnet with
          | .error e => (errEnv ("Failed to retrieve stock details for " ++ symbol ++ ": " ++ e), 2)
          | .ok qResp =>
            if qResp.status_code ≠ 200 then
              (errEnv ("API request failed with status code " ++ toString qResp.status_code), 2)
            else
              match buildDetails symbol odata qResp with
              | .ok env => (env, 2)
              | .error e => (errEnv ("Failed to retrieve stock details for " ++ symbol ++ ": " ++ e), 2)

/-- a pandas timestamp as used by the historical-series rows, at second
granularity (the granularity the strftime format renders). -/
structure Ts where
  year : ℕ
  month : ℕ
  day : ℕ
  hour : ℕ
  minute : ℕ
  second : ℕ
deriving DecidableEq, Repr

/-- a cell of a historical-series row: a timestamp, a float, or a string. -/
inductive HCell where
  | ts (t : Ts)
  | num (q : PFloat)
  | str (s : String)
deriving DecidableEq, Repr

/-- a row of the historical table, as produced by reset_index followed by
to_dict: an ordered record of column name and cell. -/
abbrev HRow := List (String × HCell)

/-- a decimal digit character (least significant digit of n). -/
def dig (n : ℕ) : Char := Nat.digitChar (n % 10)

/-- two-digit zero-padded rendering, as the %m %d %H %M %S strftime
fields produce for in-range values. -/
def pad2 (n : ℕ) : String := String.mk [dig (n / 10), dig n]

/-- four-digit zero-padded rendering, as the %Y strftime field produces
for in-range years. -/
def pad4 (n : ℕ) : String := String.mk [dig (n / 1000), dig (n / 100), dig (n / 10), dig n]

/-- strftime with the fixed format of the source: year-month-day space
hour:minute:second. -/
def Ts.fmt (t : Ts) : String :=
  pad4 t.year ++ "-" ++ pad2 t.month ++ "-" ++ pad2 t.day ++ " "
    ++ pad2 t.hour ++ ":" ++ pad2 t.minute ++ ":" ++ pad2 t.second

/-- str() of a cell, for the branch of the source that stringifies a
non-timestamp value in the date column. -/
def pyStrCell : HCell → String
  | .ts t => Ts.fmt t
  | .num q => floatRepr q
  | .str s => s

/-- does the row carry the column? -/
def rowHasKey (r : HRow) (k : String) : Bool := r.any (fun kv => kv.1 == k)

/-- the cell of the column, first occurrence. -/
def rowFind (r : HRow) (k : String) : Option HCell :=
  (r.find? (fun kv => kv.1 == k)).map (fun kv => kv.2)

/-- dict pop of the column (rows carry each column once). -/
def rowPop (r : HRow) (k : String) : HRow := r.filter (fun kv => !(kv.1 == k))

/-- renaming of one timestamp column: a Timestamp cell is popped and
re-inserted at the end as the formatted date_time field; a non-Timestamp
cell is stringified into date_time without popping the original column,
exactly as the conditional expression of the source behaves. -/
def renameKeyRow (r : HRow) (k : String) : HRow :=
  match rowFind r k with
  | some (HCell.ts t) => rowPop r k ++ [("date_time", HCell.str (Ts.fmt t))]
  | some c => r ++ [("date_time", HCell.str (pyStrCell c))]
  | none => r

/-- per-row normalization of the date column: Date is checked first, then
Datetime, as in the source. -/
def renameRow (r : HRow) : HRow :=
  if rowHasKey r "Date" then renameKeyRow r "Date"
  else if rowHasKey r "Datetime" then renameKeyRow r "Datetime"
  else r

/-- result envelope of the historical-series client: an error message or
the success payload with its echo fields and the normalized rows. -/
inductive HistRes where
  | ok (ticker period interval : String) (data : List HRow)
  | err (msg : String)
deriving DecidableEq, Repr

/-- the get_historical_yahoo_finance client function.  The provider
interaction is passed in: an error value models the history call raising,
a table value models the returned (possibly empty) DataFrame as its record
list. -/
def get_historical_yahoo_finance (ticker period interval : String)
    (hist : Except String (List HRow)) : HistRes :=
  match hist with
  | .error e => .err ("Failed to retrieve historical data for " ++ ticker
      ++ " (" ++ period ++ ", " ++ interval ++ "): " ++ e)
  | .ok rows =>
    if rows.isEmpty then
      .err ("No historical data found for ticker " ++ ticker
        ++ " with the specified period (" ++ period ++ ") and interval (" ++ interval ++ ").")
    else
      .ok (pyUpper ticker) period interval (rows.map renameRow)

/-- lexicographic order on number lists, used for chronological comparison
of timestamps. -/
def lexLeN : List ℕ → List ℕ → Bool
  | [], _ => true
  | _ :: _, [] => false
  | a :: as, b :: bs => decide (a < b) || (a == b && lexLeN as bs)

/-- chronological comparison of timestamps. -/
def tsLe (a b : Ts) : Bool :=
  lexLeN [a.year, a.month, a.day, a.hour, a.minute, a.second]
    [b.year, b.month, b.day, b.hour, b.minute, b.second]

/-- is the timestamp list non-decreasing? -/
def tsSortedB : List Ts → Bool
  | [] => true
  | [_] => true
  | a :: b :: rest => tsLe a b && tsSortedB (b :: rest)

/-- the timestamp of a row (Date column first, then Datetime), defaulting
to the zero timestamp. -/
def rowTs (r : HRow) : Ts :=
  match rowFind r "Date" with
  | some (HCell.ts t) => t
  | _ =>
    match rowFind r "Datetime" with
    | some (HCell.ts t) => t
    | _ => ⟨0, 0, 0, 0, 0, 0⟩

/-- are the timestamp fields within the ranges the fixed-width format
renders (calendar fields are, by construction of the provider)? -/
def tsBounded (t : Ts) : Bool :=
  decide (t.year < 10000) && decide (t.month < 100) && decide (t.day < 100)
    && decide (t.hour < 100) && decide (t.minute < 100) && decide (t.second < 100)

/-- a well-formed provider row: the leading reset-index column is Date or
Datetime carrying an in-range timestamp, and no later column reuses either
name. -/
def rowOk (r : HRow) : Bool :=
  match r with
  | (k, HCell.ts t) :: rest =>
    (k == "Date" || k == "Datetime") && tsBounded t
      && rest.all (fun kv => !(kv.1 == "Date") && !(kv.1 == "Datetime"))
  | _ => false

/-- shape check for the canonical date_time rendering: nineteen characters,
digits in the calendar positions, fixed separators. -/
def isDateTimeFormat (s : String) : Bool :=
  match s.data with
  | [y1, y2, y3, y4, a, m1, m2, b, d1, d2, c, h1, h2, d, n1, n2, e, s1, s2] =>
    y1.isDigit && y2.isDigit && y3.isDigit && y4.isDigit && (a == '-')
      && m1.isDigit && m2.isDigit && (b == '-') && d1.isDigit && d2.isDigit
      && (c == ' ') && h1.isDigit && h2.isDigit && (d == ':')
      && n1.isDigit && n2.isDigit && (e == ':') && s1.isDigit && s2.isDigit
  | _ => false

/-- the envelope contract of the claims: the result is a dict whose status
is success, or error with a nonempty error_message. -/
def isToolEnvelope (j : Json) : Prop :=
  (∃ kvs, j = Json.obj kvs) ∧
  (jget j "status" = some (Json.str "success") ∨
    (jget j "status" = some (Json.str "error") ∧
      ∃ msg, jget j "error_message" = some (Json.str msg) ∧ msg ≠ ""))

/-- the envelope contract for the historical-series client, whose result is
modelled by its own envelope type: failures carry a nonempty message. -/
def histEnvelope : HistRes → Prop
  | .ok _ _ _ _ => True
  | .err msg => msg ≠ ""

/-- the property claim C2 states about get_market_movers: whatever the
response, the returned gainers and losers lists hold at most limit entries
each, and when the upstream payload carries a list under
top_gainers/top_losers the returned list is exactly the converted
limit-prefix of it, in upstream order. -/
def moversLimitSpec (limit : ℤ) (net : Except String HttpResponse) : Prop :=
  ∀ gs ls,
    jget (get_market_movers limit net) "gainers" = some (Json.arr gs) →
    jget (get_market_movers limit net) "losers" = some (Json.arr ls) →
    gs.length ≤ limit.toNat ∧ ls.length ≤ limit.toNat ∧
    (∀ resp data garr, net = .ok resp → resp.body = some data →
      pyIndexStr data "top_gainers" = .ok (Json.arr garr) →
      mapE convMover (garr.take limit.toNat) = .ok gs) ∧
    (∀ resp data larr, net = .ok resp → resp.body = some data →
      pyIndexStr data "top_losers" = .ok (Json.arr larr) →
      mapE convMover (larr.take limit.toNat) = .ok ls)

/-- Modelled from the claim wording of C8 for comparison with the code:
removal of one leading dollar sign only (the code instead removes every
occurrence via str.replace). -/
def specStripLeadingDollar (s : String) : String :=
  match s.data with
  | c :: rest => if c = '$' then String.mk rest else s
  | [] => s

/-- the string-concatenation counterpart of List.append on the data field. -/
theorem strData (a b : String) : (a ++ b).data = a.data ++ b.data := rfl

example : pyFloatStr "12.34" = .ok ⟨1234, -2⟩ := by decide

example : pyFloatStr "-0.5" = .ok ⟨-5, -1⟩ := by decide

example : pyStrReplace "1$2" "$" "" = "12" := by decide

example : pyStrReplace "3.45%" "%" "" = "3.45" := by decide

example : pyStrReplace "1,234,567" "," "" = "1234567" := by decide

example : pyIntStr "1234567" = .ok 1234567 := by decide

example : pyFloatStr "1$2" = .error "ValueError: could not convert string to float: 1$2" := by decide

example : format2f ⟨2543700000000, 0⟩ = "2543700000000.00" := by decide

example : format2f (PFloat.divPow10 ⟨2543700000000, 0⟩ 9) = "2543.70" := by decide

example : format2f ⟨10125, -3⟩ = "10.12" := by decide

example : format2f ⟨10135, -3⟩ = "10.14" := by decide

example : floatRepr ⟨1234, -2⟩ = "12.34" := by decide

example : floatRepr ⟨350, -2⟩ = "3.5" := by decide

example : floatRepr ⟨3, 0⟩ = "3.0" := by decide

example : floatRepr ⟨-5, -1⟩ = "-0.5" := by decide

example : intGrouped 1234567 = "1,234,567" := by decide

example : intGrouped 0 = "0" := by decide

example : Ts.fmt ⟨2024, 1, 2, 0, 0, 0⟩ = "2024-01-02 00:00:00" := by decide

example : isDateTimeFormat "2024-01-02 00:00:00" = true := by decide

/-- a nonempty head keeps a concatenation nonempty (on the data field). -/
theorem dataNeApp (a b : String) (h : a.data ≠ []) : (a ++ b).data ≠ [] := by
  rw [strData]
  intro hh
  exact h (List.append_eq_nil.mp hh).1

/-- a string with nonempty data is not the empty string. -/
theorem str_ne_empty {s : String} (h : s.data ≠ []) : s ≠ "" := by
  intro e
  subst e
  exact h rfl

/-- every error envelope with a nonempty message satisfies the contract. -/
theorem errEnv_envelope {msg : String} (h : msg.data ≠ []) : isToolEnvelope (errEnv msg) :=
  ⟨⟨_, rfl⟩, Or.inr ⟨rfl, msg, rfl, str_ne_empty h⟩⟩

/-- every ticker-carrying error envelope with a nonempty message satisfies
the contract. -/
theorem errEnvTicker_envelope (ticker : String) {msg : String} (h : msg.data ≠ []) :
    isToolEnvelope (errEnvTicker ticker msg) :=
  ⟨⟨_, rfl⟩, Or.inr ⟨rfl, msg, rfl, str_ne_empty h⟩⟩

/-- the movers success envelope satisfies the contract. -/
theorem moversSuccess_envelope (g l : List Json) (u : Json) :
    isToolEnvelope (moversSuccess g l u) :=
  ⟨⟨_, rfl⟩, Or.inl rfl⟩

/-- a successful movers body is always the success envelope. -/
theorem marketMoversBody_ok {limit : ℤ} {resp : HttpResponse} {env : Json}
    (h : marketMoversBody limit resp = .ok env) : ∃ g l u, env = moversSuccess g l u := by
  unfold marketMoversBody at h
  repeat' split at h
  all_goals cases h
  exact ⟨_, _, _, rfl⟩

/-- a successful details body is always the success envelope. -/
theorem buildDetails_ok {symbol : String} {odata : Json} {qResp : HttpResponse} {env : Json}
    (h : buildDetails symbol odata qResp = .ok env) :
    ∃ report nameJ price change cp sectorJ industryJ descJ,
      env = detailsSuccess symbol report nameJ price change cp sectorJ industryJ descJ := by
  unfold buildDetails at h
  repeat' split at h
  all_goals cases h
  exact ⟨_, _, _, _, _, _, _, _, rfl⟩

/-- C1.  For every input and every upstream outcome (transport raise,
malformed JSON body, any response shape), each of the five client functions
returns a dict envelope and never lets an exception escape: the result is
either a success envelope or an error envelope whose error_message is a
nonempty string.  The Except layer inside the embedding models Python
exceptions, and every function boundary catches it, as the source
try/except blocks do. -/
theorem c1_clients_contain_failures :
    (∀ limit net, isToolEnvelope (get_market_movers limit net)) ∧
    (∀ symbol onet qnet, isToolEnvelope (get_stock_details symbol onet qnet).1) ∧
    (∀ ticker limit topics net, isToolEnvelope (get_stock_news ticker limit topics net)) ∧
    (∀ ticker limit net, isToolEnvelope (get_earnings_call_news_highlights ticker limit net)) ∧
    (∀ ticker period interval hist,
      histEnvelope (get_historical_yahoo_finance ticker period interval hist)) := by
  refine ⟨?_, ?_, ?_, ?_, ?_⟩
  · intro limit net
    simp only [get_market_movers]
    split
    · exact errEnv_envelope (dataNeApp _ _ (by decide))
    · split
      · exact errEnv_envelope (dataNeApp _ _ (by decide))
      · split
        · rename_i env henv
          obtain ⟨g, l, u, rfl⟩ := marketMoversBody_ok henv
          exact moversSuccess_envelope g l u
        · exact errEnv_envelope (dataNeApp _ _ (by decide))
  · intro symbol onet qnet
    simp only [get_stock_details]
    split
    · exact errEnv_envelope (dataNeApp _ _ (dataNeApp _ _ (dataNeApp _ _ (by decide))))
    · split
      · exact errEnv_envelope (dataNeApp _ _ (by decide))
      · split
        · exact errEnv_envelope (dataNeApp _ _ (dataNeApp _ _ (by decide)))
        · split
          · exact errEnv_envelope (dataNeApp _ _ (dataNeApp _ _ (dataNeApp _ _ (by decide))))
          · exact errEnv_envelope (dataNeApp _ _ (by decide))
          · split
            · exact errEnv_envelope (dataNeApp _ _ (dataNeApp _ _ (dataNeApp _ _ (by decide))))
            · split
              · exact errEnv_envelope (dataNeApp _ _ (by decide))
              · split
                · rename_i env henv
                  obtain ⟨r, n, p, c, cp, s, i, d, rfl⟩ := buildDetails_ok henv
                  exact ⟨⟨_, rfl⟩, Or.inl rfl⟩
                · exact errEnv_envelope (dataNeApp _ _ (dataNeApp _ _ (dataNeApp _ _ (by decide))))
  · intro ticker limit topics net
    simp only [get_stock_news]
    split
    · exact errEnv_envelope (dataNeApp _ _ (dataNeApp _ _ (dataNeApp _ _ (by decide))))
    · split
      · exact errEnv_envelope (dataNeApp _ _ (dataNeApp _ _ (dataNeApp _ _ (by decide))))
      · split
        · exact errEnv_envelope (dataNeApp _ _ (dataNeApp _ _ (by decide)))
        · split
          · exact errEnv_envelope (dataNeApp _ _ (dataNeApp _ _ (dataNeApp _ _ (by decide))))
          · exact ⟨⟨_, rfl⟩, Or.inl rfl⟩
  · intro ticker limit net
    simp only [get_earnings_call_news_highlights]
    split
    · exact errEnvTicker_envelope ticker (dataNeApp _ _ (dataNeApp _ _ (dataNeApp _ _ (by decide))))
    · split
      · exact errEnvTicker_envelope ticker (dataNeApp _ _ (dataNeApp _ _ (dataNeApp _ _ (by decide))))
      · split
        · exact errEnvTicker_envelope ticker (dataNeApp _ _ (dataNeApp _ _ (by decide)))
        · split
          · exact errEnvTicker_envelope ticker (dataNeApp _ _ (dataNeApp _ _ (dataNeApp _ _ (by decide))))
          · exact ⟨⟨_, rfl⟩, Or.inl rfl⟩
  · intro ticker period interval hist
    simp only [get_historical_yahoo_finance]
    split
    · exact str_ne_empty (dataNeApp _ _ (dataNeApp _ _ (dataNeApp _ _ (dataNeApp _ _
        (dataNeApp _ _ (dataNeApp _ _ (dataNeApp _ _ (by decide))))))))
    · split
      · exact str_ne_empty (dataNeApp _ _ (dataNeApp _ _ (dataNeApp _ _ (dataNeApp _ _
          (dataNeApp _ _ (dataNeApp _ _ (by decide)))))))
      · trivial

/-- sequential conversion preserves length when it succeeds. -/
theorem mapE_ok_length {f : Json → Except String Json} {l : List Json} {ys : List Json}
    (h : mapE f l = .ok ys) : ys.length = l.length := by
  induction l generalizing ys with
  | nil => cases h; rfl
  | cons a rest ih =>
    unfold mapE at h
    split at h
    · cases h
    · split at h
      · cases h
      · cases h
        rename_i heq
        simp [ih heq]

/-- a successful slice-and-iterate with nonnegative limit yields at most
limit elements. -/
theorem pySliceIter_length {v : Json} {limit : ℤ} {items : List Json}
    (h0 : 0 ≤ limit) (h : pySliceIter v limit = .ok items) : items.length ≤ limit.toNat := by
  unfold pySliceIter at h
  split at h
  · cases h
    simp only [pySliceIdx, if_pos h0, List.length_take]
    exact min_le_left _ _
  · cases h
    simp only [pySliceIdx, if_pos h0, List.length_map, List.length_take]
    exact min_le_left _ _
  · cases h

/-- a successful side of the movers payload has at most limit entries. -/
theorem processSide_ok_length {data : Json} {key : String} {limit : ℤ} {gs : List Json}
    (h0 : 0 ≤ limit) (h : processSide data key limit = .ok gs) : gs.length ≤ limit.toNat := by
  unfold processSide at h
  split at h
  · cases h
  · cases h
    simp
  · split at h
    · cases h
    · split at h
      · cases h
      · rename_i hslice
        calc gs.length = _ := mapE_ok_length h
        _ ≤ limit.toNat := pySliceIter_length h0 hslice

/-- a found key makes the dict membership test true. -/
theorem lookupKV_any {kvs : List (String × Json)} {key : String} {v : Json}
    (h : lookupKV kvs key = some v) : kvs.any (fun kv => kv.1 == key) = true := by
  induction kvs with
  | nil => cases h
  | cons kv rest ih =>
    unfold lookupKV at h
    by_cases hk : kv.1 = key
    · simp [List.any_cons, hk]
    · rw [if_neg ?_] at h
      · simp [List.any_cons, ih h, hk]
      · obtain ⟨k, w⟩ := kv
        simpa using hk

/-- when the side key holds a list, the successful side is exactly the
converted prefix of that list. -/
theorem processSide_ok_arr {data : Json} {key : String} {limit : ℤ} {gs garr : List Json}
    (h0 : 0 ≤ limit) (h : processSide data key limit = .ok gs)
    (hidx : pyIndexStr data key = .ok (Json.arr garr)) :
    mapE convMover (garr.take limit.toNat) = .ok gs := by
  unfold pyIndexStr at hidx
  split at hidx
  · split at hidx
    · cases hidx
      rename_i kvs _ hlook
      unfold processSide at h
      rw [show pyIn key (Json.obj kvs) = .ok true by
        simp [pyIn, lookupKV_any hlook]] at h
      rw [show pyIndexStr (Json.obj kvs) key = .ok (Json.arr garr) by
        simp [pyIndexStr, hlook]] at h
      simp only [pySliceIter, pySliceIdx, if_pos h0] at h
      exact h
    · cases hidx
  · cases hidx

/-- the gainers half of the C2 property. -/
theorem movers_gainers_shape {limit : ℤ} {net : Except String HttpResponse} {gs : List Json}
    (h0 : 0 ≤ limit)
    (hg : jget (get_market_movers limit net) "gainers" = some (Json.arr gs)) :
    gs.length ≤ limit.toNat ∧
    (∀ resp data garr, net = .ok resp → resp.body = some data →
      pyIndexStr data "top_gainers" = .ok (Json.arr garr) →
      mapE convMover (garr.take limit.toNat) = .ok gs) := by
  simp only [get_market_movers] at hg
  split at hg
  · simp [errEnv, jget, lookupKV] at hg
  · split at hg
    · simp [errEnv, jget, lookupKV] at hg
    · split at hg
      · rename_i env henv
        unfold marketMoversBody at henv
        split at henv
        · cases henv
        · rename_i data hbody
          split at henv
          · cases henv
          · rename_i g hpg
            split at henv
            · cases henv
            · rename_i l hpl
              split at henv
              · cases henv
              · rename_i u hu
                cases henv
                simp only [moversSuccess, jget, lookupKV] at hg
                simp only [String.reduceEq, if_false, if_true, reduceIte] at hg
                cases hg
                constructor
                · exact processSide_ok_length h0 hpg
                · intro resp' data' garr hresp hbody' hidx
                  injection hresp with hr
                  subst hr
                  rw [hbody] at hbody'
                  injection hbody' with hd
                  subst hd
                  exact processSide_ok_arr h0 hpg hidx
      · simp [errEnv, jget, lookupKV] at hg

/-- the losers half of the C2 property. -/
theorem movers_losers_shape {limit : ℤ} {net : Except String HttpResponse} {ls : List Json}
    (h0 : 0 ≤ limit)
    (hl : jget (get_market_movers limit net) "losers" = some (Json.arr ls)) :
    ls.length ≤ limit.toNat ∧
    (∀ resp data larr, net = .ok resp → resp.body = some data →
      pyIndexStr data "top_losers" = .ok (Json.arr larr) →
      mapE convMover (larr.take limit.toNat) = .ok ls) := by
  simp only [get_market_movers] at hl
  split at hl
  · simp [errEnv, jget, lookupKV] at hl
  · split at hl
    · simp [errEnv, jget, lookupKV] at hl
    · split at hl
      · rename_i env henv
        unfold marketMoversBody at henv
        split at henv
        · cases henv
        · rename_i data hbody
          split at henv
          · cases henv
          · rename_i g hpg
            split at henv
            · cases henv
            · rename_i l hpl
              split at henv
              · cases henv
              · rename_i u hu
                cases henv
                simp only [moversSuccess, jget, lookupKV] at hl
                simp only [String.reduceEq, if_false, if_true, reduceIte] at hl
                cases hl
                constructor
                · exact processSide_ok_length h0 hpl
                · intro resp' data' larr hresp hbody' hidx
                  injection hresp with hr
                  subst hr
                  rw [hbody] at hbody'
                  injection hbody' with hd
                  subst hd
                  exact processSide_ok_arr h0 hpl hidx
      · simp [errEnv, jget, lookupKV] at hl

/-- C2.  For every limit at least zero and every movers response, the
returned gainers and losers lists hold at most limit entries each, and each
list is the in-order converted prefix of the corresponding upstream
top_gainers/top_losers array: truncation takes a prefix and no re-sorting
is applied. -/
theorem c2_movers_limit_and_order (limit : ℤ) (net : Except String HttpResponse)
    (h0 : 0 ≤ limit) : moversLimitSpec limit net := by
  intro gs ls hg hl
  obtain ⟨hglen, hgpre⟩ := movers_gainers_shape h0 hg
  obtain ⟨hllen, hlpre⟩ := movers_losers_shape h0 hl
  exact ⟨hglen, hllen, hgpre, hlpre⟩

/-- a segment at the end of a concatenation occurs in it. -/
theorem containsSeg_right (a seg : String) : containsSeg (a ++ seg) seg :=
  ⟨a.data, [], by simp [strData]⟩

/-- a middle segment of a double concatenation occurs in it. -/
theorem containsSeg_mid (a seg b : String) : containsSeg (a ++ seg ++ b) seg :=
  ⟨a.data, b.data, by simp [strData]⟩

/-- C3.  In every client function, a non-200 upstream status yields an
immediate error envelope whose nonempty message embeds the numeric status
code, with no retry and no further upstream call: the single-call functions
return at once, and get_stock_details reports one issued call when the
overview response is non-200 (whatever the second interaction would have
returned) and two when only the quote response is non-200. -/
theorem c3_non200_is_immediate_error :
    (∀ limit (resp : HttpResponse), resp.status_code ≠ 200 →
      get_market_movers limit (.ok resp)
          = errEnv ("API request failed with status code " ++ toString resp.status_code) ∧
        containsSeg ("API request failed with status code " ++ toString resp.status_code)
          (toString resp.status_code) ∧
        ("API request failed with status code " ++ toString resp.status_code) ≠ "") ∧
    (∀ ticker limit topics (resp : HttpResponse), resp.status_code ≠ 200 →
      get_stock_news ticker limit topics (.ok resp)
          = errEnv ("API request failed with status code " ++ toString resp.status_code
            ++ ". Response: " ++ resp.text) ∧
        containsSeg ("API request failed with status code " ++ toString resp.status_code
            ++ ". Response: " ++ resp.text) (toString resp.status_code) ∧
        ("API request failed with status code " ++ toString resp.status_code
            ++ ". Response: " ++ resp.text) ≠ "") ∧
    (∀ ticker limit (resp : HttpResponse), resp.status_code ≠ 200 →
      get_earnings_call_news_highlights ticker limit (.ok resp)
          = errEnvTicker ticker ("API request failed with status code " ++ toString resp.status_code
            ++ ". Response: " ++ resp.text) ∧
        containsSeg ("API request failed with status code " ++ toString resp.status_code
            ++ ". Response: " ++ resp.text) (toString resp.status_code)) ∧
    (∀ symbol (oResp : HttpResponse) qnet, oResp.status_code ≠ 200 →
      get_stock_details symbol (.ok oResp) qnet
          = (errEnv ("API request failed with status code " ++ toString oResp.status_code), 1) ∧
        containsSeg ("API request failed with status code " ++ toString oResp.status_code)
          (toString oResp.status_code)) ∧
    (∀ symbol (oResp : HttpResponse) data (qResp : HttpResponse),
      oResp.status_code = 200 → oResp.body = some data → pyIn "Symbol" data = .ok true →
      qResp.status_code ≠ 200 →
      get_stock_details symbol (.ok oResp) (.ok qResp)
          = (errEnv ("API request failed with status code " ++ toString qResp.status_code), 2) ∧
        containsSeg ("API request failed with status code " ++ toString qResp.status_code)
          (toString qResp.status_code)) := by
  refine ⟨?_, ?_, ?_, ?_, ?_⟩
  · intro limit resp h
    refine ⟨?_, containsSeg_right _ _, str_ne_empty (dataNeApp _ _ (by decide))⟩
    simp only [get_market_movers, if_pos h]
  · intro ticker limit topics resp h
    refine ⟨?_, ?_, str_ne_empty (dataNeApp _ _ (dataNeApp _ _ (dataNeApp _ _ (by decide))))⟩
    · simp only [get_stock_news, if_pos h]
    · exact ⟨("API request failed with status code " : String).data,
        (". Response: " ++ resp.text).data, by simp [strData]⟩
  · intro ticker limit resp h
    refine ⟨?_, ?_⟩
    · simp only [get_earnings_call_news_highlights, if_pos h]
    · exact ⟨("API request failed with status code " : String).data,
        (". Response: " ++ resp.text).data, by simp [strData]⟩
  · intro symbol oResp qnet h
    refine ⟨?_, containsSeg_right _ _⟩
    simp only [get_stock_details, if_pos h]
  · intro symbol oResp data qResp h200 hbody hsym hq
    refine ⟨?_, containsSeg_right _ _⟩
    simp only [get_stock_details, if_neg (not_not_intro h200), hbody, hsym, if_pos hq]

/-- witness for C3: concrete 404, 500 and 503 responses produce the stated
error envelopes and call counts in each client function. -/
theorem c3_non200_is_immediate_error_witness :
    ((404 : ℕ) ≠ 200) ∧
    get_market_movers 5 (.ok ⟨404, none, "x"⟩)
      = errEnv "API request failed with status code 404" ∧
    get_stock_news "aapl" 3 (.atom .none) (.ok ⟨500, none, "boom"⟩)
      = errEnv "API request failed with status code 500. Response: boom" ∧
    get_earnings_call_news_highlights "aapl" 3 (.ok ⟨500, none, "boom"⟩)
      = errEnvTicker "aapl" "API request failed with status code 500. Response: boom" ∧
    get_stock_details "X" (.ok ⟨404, none, "x"⟩) (.ok ⟨200, some (.obj []), ""⟩)
      = (errEnv "API request failed with status code 404", 1) ∧
    get_stock_details "X" (.ok ⟨200, some (.obj [("Symbol", .str "X")]), ""⟩) (.ok ⟨503, none, ""⟩)
      = (errEnv "API request failed with status code 503", 2) :=
  ⟨by decide,
    (c3_non200_is_immediate_error.1 5 ⟨404, none, "x"⟩ (by decide)).1,
    (c3_non200_is_immediate_error.2.1 "aapl" 3 (.atom .none) ⟨500, none, "boom"⟩ (by decide)).1,
    (c3_non200_is_immediate_error.2.2.1 "aapl" 3 ⟨500, none, "boom"⟩ (by decide)).1,
    (c3_non200_is_immediate_error.2.2.2.1 "X" ⟨404, none, "x"⟩ (.ok ⟨200, some (.obj []), ""⟩)
      (by decide)).1,
    (c3_non200_is_immediate_error.2.2.2.2 "X" ⟨200, some (.obj [("Symbol", .str "X")]), ""⟩
      (.obj [("Symbol", .str "X")]) ⟨503, none, ""⟩ rfl rfl rfl (by decide)).1⟩

/-- witness for C2 at limit two against a concrete movers fixture with
three gainers and one loser. -/
theorem c2_movers_limit_and_order_witness :
    0 ≤ (2 : ℤ) ∧ moversLimitSpec 2 (.ok ⟨200, some (.obj
      [("top_gainers", .arr
        [.obj [("ticker", .str "AAA"), ("name", .str "Alpha"), ("price", .str "$3.45"),
          ("change_amount", .str "$0.45"), ("change_percentage", .str "15.0%"),
          ("volume", .str "1,234")],
         .obj [("ticker", .str "BBB"), ("name", .str "Beta"), ("price", .str "$2.00"),
          ("change_amount", .str "$0.20"), ("change_percentage", .str "11.0%"),
          ("volume", .str "99")],
         .obj [("ticker", .str "CCC"), ("name", .str "Gamma"), ("price", .str "$1.00"),
          ("change_amount", .str "$0.10"), ("change_percentage", .str "10.0%"),
          ("volume", .str "5")]]),
       ("top_losers", .arr
        [.obj [("ticker", .str "DDD"), ("name", .str "Delta"), ("price", .str "$9.00"),
          ("change_amount", .str "-$0.90"), ("change_percentage", .str "-9.0%"),
          ("volume", .str "7")]]),
       ("last_updated", .str "2025-01-01 16:15:59 US/Eastern")]), ""⟩) :=
  ⟨by decide, c2_movers_limit_and_order 2 _ (by decide)⟩

/-- C6.  When the parsed overview contains no Symbol key, get_stock_details
returns the no-data error envelope having issued only the overview call,
whatever the second interaction would have returned; and a non-200 status
on either of the two sequential calls yields the bare error envelope
immediately (its only keys are status and error_message, so nothing of the
other call is merged), with the call count showing the short-circuit. -/
theorem c6_details_short_circuit :
    (∀ symbol (oResp : HttpResponse) data qnet, oResp.status_code = 200 →
      oResp.body = some data → pyIn "Symbol" data = .ok false →
      get_stock_details symbol (.ok oResp) qnet
        = (errEnv ("No data found for symbol " ++ symbol), 1)) ∧
    (∀ symbol (oResp : HttpResponse) qnet, oResp.status_code ≠ 200 →
      get_stock_details symbol (.ok oResp) qnet
        = (errEnv ("API request failed with status code " ++ toString oResp.status_code), 1)) ∧
    (∀ symbol (oResp : HttpResponse) data (qResp : HttpResponse), oResp.status_code = 200 →
      oResp.body = some data → pyIn "Symbol" data = .ok true → qResp.status_code ≠ 200 →
      get_stock_details symbol (.ok oResp) (.ok qResp)
        = (errEnv ("API request failed with status code " ++ toString qResp.status_code), 2)) := by
  refine ⟨?_, ?_, ?_⟩
  · intro symbol oResp data qnet h200 hbody hsym
    simp only [get_stock_details, if_neg (not_not_intro h200), hbody, hsym]
  · intro symbol oResp qnet h
    simp only [get_stock_details, if_pos h]
  · intro symbol oResp data qResp h200 hbody hsym hq
    simp only [get_stock_details, if_neg (not_not_intro h200), hbody, hsym, if_pos hq]

/-- witness for C6: a 200 overview without a Symbol key short-circuits with
one call; concrete non-200 overview and quote responses yield the bare
error envelopes with the matching call counts. -/
theorem c6_details_short_circuit_witness :
    ((200 : ℕ) = 200 ∧ pyIn "Symbol" (Json.obj [("Note", .str "rate limited")]) = .ok false ∧
      (404 : ℕ) ≠ 200 ∧ (503 : ℕ) ≠ 200) ∧
    get_stock_details "GOOG" (.ok ⟨200, some (.obj [("Note", .str "rate limited")]), ""⟩)
        (.ok ⟨200, some (.obj []), ""⟩)
      = (errEnv "No data found for symbol GOOG", 1) ∧
    get_stock_details "GOOG" (.ok ⟨404, none, ""⟩) (.ok ⟨200, some (.obj []), ""⟩)
      = (errEnv "API request failed with status code 404", 1) ∧
    get_stock_details "GOOG" (.ok ⟨200, some (.obj [("Symbol", .str "GOOG")]), ""⟩)
        (.ok ⟨503, none, ""⟩)
      = (errEnv "API request failed with status code 503", 2) :=
  ⟨⟨rfl, rfl, by decide, by decide⟩,
    c6_details_short_circuit.1 "GOOG" ⟨200, some (.obj [("Note", .str "rate limited")]), ""⟩
      (.obj [("Note", .str "rate limited")]) (.ok ⟨200, some (.obj []), ""⟩) rfl rfl rfl,
    c6_details_short_circuit.2.1 "GOOG" ⟨404, none, ""⟩ (.ok ⟨200, some (.obj []), ""⟩) (by decide),
    c6_details_short_circuit.2.2 "GOOG" ⟨200, some (.obj [("Symbol", .str "GOOG")]), ""⟩
      (.obj [("Symbol", .str "GOOG")]) ⟨503, none, ""⟩ rfl rfl rfl (by decide)⟩

/-- a segment made of the last three pieces of a concatenation occurs in
it. -/
theorem containsSeg_tail3 (x s1 s2 : String) {s3 seg : String} (h : s1 ++ s2 ++ s3 = seg) :
    containsSeg (x ++ s1 ++ s2 ++ s3) seg := by
  refine ⟨x.data, [], ?_⟩
  rw [← h]
  simp [strData, List.append_assoc]

/-- C10.  When both calls return 200 and the overview has a Symbol key but
the quote body is an object whose Global Quote entry is missing or the
empty object, get_stock_details still succeeds: price, change and
change_percent are zero and the report renders volume zero — the absent
quote payload does not produce an error envelope. -/
theorem c10_missing_global_quote_is_success (symbol : String)
    (okvs qkvs : List (String × Json)) (t1 t2 : String) (mc : PFloat)
    (hsym : pyIn "Symbol" (Json.obj okvs) = .ok true)
    (hmc : pyFloat ((lookupKV okvs "MarketCapitalization").getD (Json.str "0")) = .ok mc)
    (hgq : lookupKV qkvs "Global Quote" = none ∨
      lookupKV qkvs "Global Quote" = some (Json.obj [])) :
    jget (get_stock_details symbol (.ok ⟨200, some (.obj okvs), t1⟩)
        (.ok ⟨200, some (.obj qkvs), t2⟩)).1 "status" = some (.str "success") ∧
    jget (get_stock_details symbol (.ok ⟨200, some (.obj okvs), t1⟩)
        (.ok ⟨200, some (.obj qkvs), t2⟩)).1 "price" = some (.num ⟨0, 0⟩) ∧
    jget (get_stock_details symbol (.ok ⟨200, some (.obj okvs), t1⟩)
        (.ok ⟨200, some (.obj qkvs), t2⟩)).1 "change" = some (.num ⟨0, 0⟩) ∧
    jget (get_stock_details symbol (.ok ⟨200, some (.obj okvs), t1⟩)
        (.ok ⟨200, some (.obj qkvs), t2⟩)).1 "change_percent" = some (.num ⟨0, 0⟩) ∧
    ∃ rep, jget (get_stock_details symbol (.ok ⟨200, some (.obj okvs), t1⟩)
        (.ok ⟨200, some (.obj qkvs), t2⟩)).1 "report" = some (.str rep) ∧
      containsSeg rep "Volume: 0\n" := by
  have hqd : (lookupKV qkvs "Global Quote").getD (Json.obj []) = Json.obj [] := by
    rcases hgq with h | h <;> simp [h]
  refine ⟨?_, ?_, ?_, ?_, ?_⟩ <;>
    simp only [get_stock_details, buildDetails, hsym, pyGet, hqd, hmc,
      show parseQuote (Json.obj [])
        = (.ok (⟨0, 0⟩, ⟨0, 0⟩, ⟨0, 0⟩) : Except String (PFloat × PFloat × PFloat)) from rfl,
      detailsReport,
      show getIntField (Json.obj []) "06. volume" "0" = (.ok 0 : Except String ℤ) from rfl,
      detailsSuccess, jget, lookupKV, ne_eq, reduceCtorEq, Option.getD_some, Option.getD_none]
  · simp [lookupKV]
  · simp [lookupKV]
  · simp [lookupKV]
  · simp [lookupKV]
  · exact ⟨_, rfl, containsSeg_tail3 _ _ _ (by decide)⟩

/-- witness for C10: a 200 overview carrying only Symbol and a 200 quote
whose body object lacks Global Quote give a success envelope with zero
price, change and change percent and a zero-volume report. -/
theorem c10_missing_global_quote_is_success_witness :
    (pyIn "Symbol" (Json.obj [("Symbol", Json.str "NVDA")]) = .ok true ∧
      pyFloat ((lookupKV [("Symbol", Json.str "NVDA")] "MarketCapitalization").getD
        (Json.str "0")) = .ok ⟨0, 0⟩ ∧
      lookupKV ([] : List (String × Json)) "Global Quote" = none) ∧
    (jget (get_stock_details "NVDA" (.ok ⟨200, some (.obj [("Symbol", Json.str "NVDA")]), ""⟩)
        (.ok ⟨200, some (.obj []), ""⟩)).1 "status" = some (.str "success") ∧
      jget (get_stock_details "NVDA" (.ok ⟨200, some (.obj [("Symbol", Json.str "NVDA")]), ""⟩)
        (.ok ⟨200, some (.obj []), ""⟩)).1 "price" = some (.num ⟨0, 0⟩) ∧
      jget (get_stock_details "NVDA" (.ok ⟨200, some (.obj [("Symbol", Json.str "NVDA")]), ""⟩)
        (.ok ⟨200, some (.obj []), ""⟩)).1 "change" = some (.num ⟨0, 0⟩) ∧
      jget (get_stock_details "NVDA" (.ok ⟨200, some (.obj [("Symbol", Json.str "NVDA")]), ""⟩)
        (.ok ⟨200, some (.obj []), ""⟩)).1 "change_percent" = some (.num ⟨0, 0⟩) ∧
      ∃ rep, jget (get_stock_details "NVDA" (.ok ⟨200, some (.obj [("Symbol", Json.str "NVDA")]), ""⟩)
        (.ok ⟨200, some (.obj []), ""⟩)).1 "report" = some (.str rep) ∧
        containsSeg rep "Volume: 0\n") :=
  ⟨⟨rfl, rfl, rfl⟩,
    c10_missing_global_quote_is_success "NVDA" [("Symbol", Json.str "NVDA")] [] "" "" ⟨0, 0⟩
      rfl rfl (Or.inl rfl)⟩

/-- a contained segment stays contained after appending on the right. -/
theorem containsSeg_append_right (y : String) {s seg : String} (h : containsSeg s seg) :
    containsSeg (s ++ y) seg := by
  obtain ⟨a, b, hb⟩ := h
  exact ⟨a, b ++ y.data, by simp [strData, hb, List.append_assoc]⟩

/-- dividing an exact decimal by 10 to the k divides its value, so the
market-cap figure rendered by the report is the raw value divided by 1e9
before the two-decimal rounding. -/
theorem divPow10_toRat (x : PFloat) (k : ℕ) :
    (x.divPow10 k).toRat = x.toRat / (10 : ℚ) ^ (k : ℤ) := by
  unfold PFloat.divPow10 PFloat.toRat
  simp only
  rw [zpow_sub₀ (by norm_num : (10 : ℚ) ≠ 0)]
  ring

/-- C5.  On a successful get_stock_details call, the market-capitalization
figure carried by the result (in its report field) is the raw provider
value divided by 1e9 and rounded to two decimals (format2f applies
round-half-even at the second decimal, the rounding of the %.2f format),
and absent optional overview fields (P/E ratio, dividend yield, 52-week
high and low) render as the N/A marker in the result instead of raising:
the call still returns status success. -/
theorem c5_market_cap_and_optional_fields (symbol : String)
    (okvs qkvs : List (String × Json)) (t1 t2 : String)
    (m : String) (mc price change cp : PFloat) (vol : ℤ)
    (hsym : pyIn "Symbol" (Json.obj okvs) = .ok true)
    (hmc : lookupKV okvs "MarketCapitalization" = some (Json.str m))
    (hparse : pyFloatStr m = .ok mc)
    (hpe : lookupKV okvs "PERatio" = none)
    (hdy : lookupKV okvs "DividendYield" = none)
    (hwh : lookupKV okvs "52WeekHigh" = none)
    (hwl : lookupKV okvs "52WeekLow" = none)
    (hq : parseQuote ((lookupKV qkvs "Global Quote").getD (Json.obj []))
      = .ok (price, change, cp))
    (hvol : getIntField ((lookupKV qkvs "Global Quote").getD (Json.obj [])) "06. volume" "0"
      = .ok vol) :
    jget (get_stock_details symbol (.ok ⟨200, some (.obj okvs), t1⟩)
        (.ok ⟨200, some (.obj qkvs), t2⟩)).1 "status" = some (.str "success") ∧
    ∃ rep, jget (get_stock_details symbol (.ok ⟨200, some (.obj okvs), t1⟩)
        (.ok ⟨200, some (.obj qkvs), t2⟩)).1 "report" = some (.str rep) ∧
      containsSeg rep ("Market Cap: $" ++ format2f (mc.divPow10 9) ++ " billion\n") ∧
      containsSeg rep "P/E Ratio: N/A\n" ∧
      containsSeg rep "Dividend Yield: N/A\n" ∧
      containsSeg rep "52-week High: $N/A\n" ∧
      containsSeg rep "52-week Low: $N/A\n" := by
  refine ⟨?_, ?_⟩ <;>
    simp only [get_stock_details, buildDetails, detailsReport, pyGet, hsym, hmc, hpe, hdy,
      hwh, hwl, hq, hvol, pyFloat, hparse, detailsSuccess, jget, lookupKV,
      Option.getD_some, Option.getD_none, pyStrJson]
  · simp [lookupKV]
  · refine ⟨_, rfl, ?_, ?_, ?_, ?_, ?_⟩
    · iterate 15 apply containsSeg_append_right
      exact containsSeg_tail3 _ _ _ rfl
    · iterate 12 apply containsSeg_append_right
      exact containsSeg_tail3 _ _ _ (by decide)
    · iterate 9 apply containsSeg_append_right
      exact containsSeg_tail3 _ _ _ (by decide)
    · iterate 6 apply containsSeg_append_right
      exact containsSeg_tail3 _ _ _ (by decide)
    · iterate 3 apply containsSeg_append_right
      exact containsSeg_tail3 _ _ _ (by decide)

/-- witness for C5: a concrete overview carrying Symbol and a 2.5437e12
market cap but none of the optional fields, with a fully populated quote,
yields a success envelope whose report shows the billions figure and the
four N/A markers. -/
theorem c5_market_cap_and_optional_fields_witness :
    (pyIn "Symbol" (Json.obj [("Symbol", Json.str "GOOG"),
        ("MarketCapitalization", Json.str "2543700000000")]) = .ok true ∧
      lookupKV [("Symbol", Json.str "GOOG"), ("MarketCapitalization", Json.str "2543700000000")]
        "MarketCapitalization" = some (Json.str "2543700000000") ∧
      pyFloatStr "2543700000000" = .ok ⟨2543700000000, 0⟩ ∧
      lookupKV [("Symbol", Json.str "GOOG"), ("MarketCapitalization", Json.str "2543700000000")]
        "PERatio" = none ∧
      parseQuote ((lookupKV [("Global Quote", Json.obj [("05. price", Json.str "170.5"),
        ("08. previous close", Json.str "169.0"), ("09. change", Json.str "1.5"),
        ("10. change percent", Json.str "0.8876%"), ("06. volume", Json.str "12345678")])]
        "Global Quote").getD (Json.obj [])) = .ok (⟨1705, -1⟩, ⟨15, -1⟩, ⟨8876, -4⟩) ∧
      format2f (PFloat.divPow10 ⟨2543700000000, 0⟩ 9) = "2543.70") ∧
    (jget (get_stock_details "GOOG"
        (.ok ⟨200, some (.obj [("Symbol", Json.str "GOOG"),
          ("MarketCapitalization", Json.str "2543700000000")]), ""⟩)
        (.ok ⟨200, some (.obj [("Global Quote", Json.obj [("05. price", Json.str "170.5"),
          ("08. previous close", Json.str "169.0"), ("09. change", Json.str "1.5"),
          ("10. change percent", Json.str "0.8876%"), ("06. volume", Json.str "12345678")])]), ""⟩)).1
        "status" = some (.str "success") ∧
      ∃ rep, jget (get_stock_details "GOOG"
        (.ok ⟨200, some (.obj [("Symbol", Json.str "GOOG"),
          ("MarketCapitalization", Json.str "2543700000000")]), ""⟩)
        (.ok ⟨200, some (.obj [("Global Quote", Json.obj [("05. price", Json.str "170.5"),
          ("08. previous close", Json.str "169.0"), ("09. change", Json.str "1.5"),
          ("10. change percent", Json.str "0.8876%"), ("06. volume", Json.str "12345678")])]), ""⟩)).1
        "report" = some (.str rep) ∧
        containsSeg rep ("Market Cap: $" ++ format2f (PFloat.divPow10 ⟨2543700000000, 0⟩ 9)
          ++ " billion\n") ∧
        containsSeg rep "P/E Ratio: N/A\n" ∧
        containsSeg rep "Dividend Yield: N/A\n" ∧
        containsSeg rep "52-week High: $N/A\n" ∧
        containsSeg rep "52-week Low: $N/A\n") :=
  ⟨⟨rfl, rfl, rfl, rfl, rfl, by decide⟩,
    c5_market_cap_and_optional_fields "GOOG"
      [("Symbol", Json.str "GOOG"), ("MarketCapitalization", Json.str "2543700000000")]
      [("Global Quote", Json.obj [("05. price", Json.str "170.5"),
        ("08. previous close", Json.str "169.0"), ("09. change", Json.str "1.5"),
        ("10. change percent", Json.str "0.8876%"), ("06. volume", Json.str "12345678")])]
      "" "" "2543700000000" ⟨2543700000000, 0⟩ ⟨1705, -1⟩ ⟨15, -1⟩ ⟨8876, -4⟩ 12345678
      rfl rfl rfl rfl rfl rfl rfl (by decide) (by decide)⟩

/-- the data field of a constructed string is its character list. -/
theorem mkData (l : List Char) : (String.mk l).data = l := rfl

/-- every rendered digit character is a decimal digit. -/
theorem dig_isDigit (n : ℕ) : (dig n).isDigit = true := by
  unfold dig
  have hlt : n % 10 < 10 := Nat.mod_lt _ (by norm_num)
  generalize hk : n % 10 = k at hlt
  interval_cases k <;> decide

/-- the fixed strftime rendering always has the canonical shape. -/
theorem fmt_isDateTimeFormat (t : Ts) : isDateTimeFormat (Ts.fmt t) = true := by
  obtain ⟨y, mo, da, hh, mi, se⟩ := t
  simp [isDateTimeFormat, Ts.fmt, pad4, pad2, strData, mkData, dig_isDigit,
    show ("-" : String).data = ['-'] from rfl,
    show (" " : String).data = [' '] from rfl,
    show (":" : String).data = [':'] from rfl]

/-- under the well-formedness of a provider row, the renaming pops the
leading timestamp column and appends the formatted date_time field, leaving
every other column untouched. -/
theorem renameRow_ok {r : HRow} (h : rowOk r = true) :
    renameRow r = r.drop 1 ++ [("date_time", HCell.str (Ts.fmt (rowTs r)))] := by
  match r with
  | [] => simp [rowOk] at h
  | (k, HCell.num q) :: rest => simp [rowOk] at h
  | (k, HCell.str s) :: rest => simp [rowOk] at h
  | (k, HCell.ts t) :: rest =>
    simp only [rowOk, Bool.and_eq_true, Bool.or_eq_true, beq_iff_eq] at h
    obtain ⟨⟨hk, hb⟩, hall⟩ := h
    have hallD : ∀ kv ∈ rest, (kv.1 == "Date") = false := by
      intro kv hkv
      have := List.all_eq_true.mp hall kv hkv
      simp only [Bool.and_eq_true, Bool.not_eq_true'] at this
      exact this.1
    have hallDT : ∀ kv ∈ rest, (kv.1 == "Datetime") = false := by
      intro kv hkv
      have := List.all_eq_true.mp hall kv hkv
      simp only [Bool.and_eq_true, Bool.not_eq_true'] at this
      exact this.2
    have hfilD : rest.filter (fun kv => !(kv.1 == "Date")) = rest := by
      rw [List.filter_eq_self]
      intro kv hkv
      simp [hallD kv hkv]
    have hfilDT : rest.filter (fun kv => !(kv.1 == "Datetime")) = rest := by
      rw [List.filter_eq_self]
      intro kv hkv
      simp [hallDT kv hkv]
    have hanyD : rest.any (fun kv => kv.1 == "Date") = false := by
      rw [List.any_eq_false]
      intro kv hkv
      simp [hallD kv hkv]
    rcases hk with hD | hDT
    · subst hD
      simp [renameRow, rowHasKey, renameKeyRow, rowFind, rowPop, rowTs, hfilD]
    · subst hDT
      have hfindD : List.find? (fun kv => kv.1 == "Date") rest = none := by
        rw [List.find?_eq_none]
        intro kv hkv
        simp [hallD kv hkv]
      simp [renameRow, rowHasKey, renameKeyRow, rowFind, rowPop, rowTs, hanyD, hfilDT, hfindD]

/-- C4.  For a non-empty provider table whose rows carry their reset-index
timestamp column (Date or Datetime, in the ranges the fixed-width format
renders) in the native ascending order, get_historical_yahoo_finance
returns success with the rows in that same order, with the timestamp
column of every row renamed to a date_time field formatted exactly as the canonical
19-character YYYY-MM-DD HH:MM:SS shape, with all other provider-native
columns passed through unchanged; the empty table yields the error
envelope. -/
theorem c4_historical_normalization (ticker period interval : String) (rows : List HRow)
    (hne : rows ≠ [])
    (hwf : rows.all rowOk = true)
    (hsorted : tsSortedB (rows.map rowTs) = true) :
    get_historical_yahoo_finance ticker period interval (.ok rows)
      = .ok (pyUpper ticker) period interval (rows.map renameRow) ∧
    (∀ r ∈ rows, renameRow r = r.drop 1 ++ [("date_time", HCell.str (Ts.fmt (rowTs r)))]) ∧
    (∀ r ∈ rows, isDateTimeFormat (Ts.fmt (rowTs r)) = true) ∧
    tsSortedB (rows.map rowTs) = true ∧
    (∀ t p i, get_historical_yahoo_finance t p i (.ok [])
      = .err ("No historical data found for ticker " ++ t ++ " with the specified period ("
        ++ p ++ ") and interval (" ++ i ++ ").")) := by
  refine ⟨?_, ?_, ?_, hsorted, ?_⟩
  · have hem : rows.isEmpty = false := by
      cases rows with
      | nil => exact absurd rfl hne
      | cons a l => rfl
    simp [get_historical_yahoo_finance, hem]
  · intro r hr
    exact renameRow_ok (List.all_eq_true.mp hwf r hr)
  · intro r hr
    exact fmt_isDateTimeFormat _
  · intro t p i
    rfl

/-- witness for C4: a concrete two-day daily table in ascending order is
normalized as stated. -/
theorem c4_historical_normalization_witness :
    (([[("Date", HCell.ts ⟨2024, 1, 2, 0, 0, 0⟩), ("Open", HCell.num ⟨100, 0⟩),
          ("Close", HCell.num ⟨101, 0⟩)],
        [("Date", HCell.ts ⟨2024, 1, 3, 0, 0, 0⟩), ("Open", HCell.num ⟨101, 0⟩),
          ("Close", HCell.num ⟨102, 0⟩)]] : List HRow) ≠ [] ∧
      ([[("Date", HCell.ts ⟨2024, 1, 2, 0, 0, 0⟩), ("Open", HCell.num ⟨100, 0⟩),
          ("Close", HCell.num ⟨101, 0⟩)],
        [("Date", HCell.ts ⟨2024, 1, 3, 0, 0, 0⟩), ("Open", HCell.num ⟨101, 0⟩),
          ("Close", HCell.num ⟨102, 0⟩)]] : List HRow).all rowOk = true) ∧
    get_historical_yahoo_finance "msft" "1y" "1d" (.ok
        [[("Date", HCell.ts ⟨2024, 1, 2, 0, 0, 0⟩), ("Open", HCell.num ⟨100, 0⟩),
          ("Close", HCell.num ⟨101, 0⟩)],
         [("Date", HCell.ts ⟨2024, 1, 3, 0, 0, 0⟩), ("Open", HCell.num ⟨101, 0⟩),
          ("Close", HCell.num ⟨102, 0⟩)]])
      = .ok "MSFT" "1y" "1d"
        ([[("Date", HCell.ts ⟨2024, 1, 2, 0, 0, 0⟩), ("Open", HCell.num ⟨100, 0⟩),
          ("Close", HCell.num ⟨101, 0⟩)],
         [("Date", HCell.ts ⟨2024, 1, 3, 0, 0, 0⟩), ("Open", HCell.num ⟨101, 0⟩),
          ("Close", HCell.num ⟨102, 0⟩)]].map renameRow) :=
  ⟨⟨by decide, by decide⟩,
    (c4_historical_normalization "msft" "1y" "1d" _ (by decide) (by decide) (by decide)).1⟩

/-- an absent key makes the dict membership test false. -/
theorem lookupKV_none_any {kvs : List (String × Json)} {key : String}
    (h : lookupKV kvs key = none) : kvs.any (fun kv => kv.1 == key) = false := by
  induction kvs with
  | nil => rfl
  | cons kv rest ih =>
    unfold lookupKV at h
    by_cases hk : kv.1 = key
    · rw [if_pos ?_] at h
      · cases h
      · obtain ⟨k, w⟩ := kv
        simpa using hk
    · rw [if_neg ?_] at h
      · simp [List.any_cons, ih h, hk]
      · obtain ⟨k, w⟩ := kv
        simpa using hk

/-- counterexample to C7 as stated: a 200 movers response whose body is a
JSON object carrying top_gainers as a string (present but not of the
expected list type) produces an error envelope with no gainers key, not a
success envelope with an empty list. -/
theorem c7_counterexample :
    jget (get_market_movers 10 (.ok ⟨200, some (.obj [("top_gainers", Json.str "ab")]), ""⟩))
        "status" = some (.str "error") ∧
    jget (get_market_movers 10 (.ok ⟨200, some (.obj [("top_gainers", Json.str "ab")]), ""⟩))
        "gainers" = none :=
  ⟨rfl, rfl⟩

/-- C7 amended.  For every 200 response whose body is a JSON object: the
news functions return success with an empty articles list when the feed key
is absent or its value is not a list; get_market_movers returns success
with empty gainers and losers when the top_gainers and top_losers keys are
absent (the movers loop has no isinstance guard, so a present non-list
value is not guaranteed success: the counterexample exhibits a string value
that yields an error envelope, though other non-list values such as the
empty string happen to succeed); and the concrete AAPL empty-feed call
returns exactly the stated envelope. -/
theorem c7_amended_absent_feed_is_success :
    (∀ (ticker : String) (limit : ℤ) (topics : PyVal) (kvs : List (String × Json)) (txt : String),
      (lookupKV kvs "feed" = none ∨ ∃ j, lookupKV kvs "feed" = some j ∧ ∀ xs, j ≠ Json.arr xs) →
      get_stock_news ticker limit topics (.ok ⟨200, some (.obj kvs), txt⟩)
        = Json.obj [("status", .str "success"), ("ticker", .str (pyUpper ticker)),
            ("articles", .arr []), ("topics", pyValJson topics)]) ∧
    (∀ (ticker : String) (limit : ℤ) (kvs : List (String × Json)) (txt : String),
      (lookupKV kvs "feed" = none ∨ ∃ j, lookupKV kvs "feed" = some j ∧ ∀ xs, j ≠ Json.arr xs) →
      get_earnings_call_news_highlights ticker limit (.ok ⟨200, some (.obj kvs), txt⟩)
        = Json.obj [("status", .str "success"), ("ticker", .str (pyUpper ticker)),
            ("articles", .arr []), ("topic_filtered", .str "earnings"),
            ("note", .str "Results show news articles related to earnings calls, not the full transcript text.")]) ∧
    (∀ (limit : ℤ) (kvs : List (String × Json)) (txt : String),
      lookupKV kvs "top_gainers" = none → lookupKV kvs "top_losers" = none →
      get_market_movers limit (.ok ⟨200, some (.obj kvs), txt⟩)
        = moversSuccess [] [] ((lookupKV kvs "last_updated").getD (Json.str "Unknown"))) ∧
    get_stock_news "AAPL" 1 (PyVal.atom .none) (.ok ⟨200, some (.obj [("feed", Json.arr [])]), ""⟩)
      = Json.obj [("status", .str "success"), ("ticker", .str "AAPL"),
          ("articles", .arr []), ("topics", Json.null)] := by
  refine ⟨?_, ?_, ?_, rfl⟩
  · intro ticker limit topics kvs txt hfeed
    rcases hfeed with hnone | ⟨j, hsome, hna⟩
    · simp [get_stock_news, newsFeedArticles, pyIn, lookupKV_none_any hnone]
    · have hany := lookupKV_any hsome
      cases j with
      | arr xs => exact absurd rfl (hna xs)
      | null => simp [get_stock_news, newsFeedArticles, pyIn, hany, pyIndexStr, hsome]
      | bool b => simp [get_stock_news, newsFeedArticles, pyIn, hany, pyIndexStr, hsome]
      | num q => simp [get_stock_news, newsFeedArticles, pyIn, hany, pyIndexStr, hsome]
      | int n => simp [get_stock_news, newsFeedArticles, pyIn, hany, pyIndexStr, hsome]
      | str s => simp [get_stock_news, newsFeedArticles, pyIn, hany, pyIndexStr, hsome]
      | obj okvs => simp [get_stock_news, newsFeedArticles, pyIn, hany, pyIndexStr, hsome]
  · intro ticker limit kvs txt hfeed
    rcases hfeed with hnone | ⟨j, hsome, hna⟩
    · simp [get_earnings_call_news_highlights, newsFeedArticles, pyIn, lookupKV_none_any hnone]
    · have hany := lookupKV_any hsome
      cases j with
      | arr xs => exact absurd rfl (hna xs)
      | null => simp [get_earnings_call_news_highlights, newsFeedArticles, pyIn, hany, pyIndexStr, hsome]
      | bool b => simp [get_earnings_call_news_highlights, newsFeedArticles, pyIn, hany, pyIndexStr, hsome]
      | num q => simp [get_earnings_call_news_highlights, newsFeedArticles, pyIn, hany, pyIndexStr, hsome]
      | int n => simp [get_earnings_call_news_highlights, newsFeedArticles, pyIn, hany, pyIndexStr, hsome]
      | str s => simp [get_earnings_call_news_highlights, newsFeedArticles, pyIn, hany, pyIndexStr, hsome]
      | obj okvs => simp [get_earnings_call_news_highlights, newsFeedArticles, pyIn, hany, pyIndexStr, hsome]
  · intro limit kvs txt hg hl
    simp [get_market_movers, marketMoversBody, processSide, pyIn,
      lookupKV_none_any hg, lookupKV_none_any hl, pyGet]

/-- witness for the amended C7: a numeric feed value, a string feed value
and an empty movers object all yield the stated success envelopes. -/
theorem c7_amended_absent_feed_is_success_witness :
    ((lookupKV [("feed", Json.num ⟨3, 0⟩)] "feed" = some (Json.num ⟨3, 0⟩) ∧
        ∀ xs, Json.num ⟨3, 0⟩ ≠ Json.arr xs) ∧
      lookupKV ([] : List (String × Json)) "top_gainers" = none) ∧
    get_stock_news "ibm" 5 (PyVal.atom .none)
        (.ok ⟨200, some (.obj [("feed", Json.num ⟨3, 0⟩)]), ""⟩)
      = Json.obj [("status", .str "success"), ("ticker", .str "IBM"),
          ("articles", .arr []), ("topics", Json.null)] ∧
    get_earnings_call_news_highlights "ibm" 5
        (.ok ⟨200, some (.obj [("feed", Json.str "oops")]), ""⟩)
      = Json.obj [("status", .str "success"), ("ticker", .str "IBM"),
          ("articles", .arr []), ("topic_filtered", .str "earnings"),
          ("note", .str "Results show news articles related to earnings calls, not the full transcript text.")] ∧
    get_market_movers 7 (.ok ⟨200, some (.obj []), ""⟩)
      = moversSuccess [] [] (Json.str "Unknown") :=
  ⟨⟨⟨rfl, fun xs h => Json.noConfusion h⟩, rfl⟩,
    c7_amended_absent_feed_is_success.1 "ibm" 5 (PyVal.atom .none) [("feed", Json.num ⟨3, 0⟩)] ""
      (Or.inr ⟨Json.num ⟨3, 0⟩, rfl, fun xs h => Json.noConfusion h⟩),
    c7_amended_absent_feed_is_success.2.1 "ibm" 5 [("feed", Json.str "oops")] ""
      (Or.inr ⟨Json.str "oops", rfl, fun xs h => Json.noConfusion h⟩),
    c7_amended_absent_feed_is_success.2.2.1 7 [] "" rfl rfl⟩

/-- counterexample to C8 as stated: on a gainers entry whose price field is
the string 1$2, the code succeeds with price twelve because replace removes
every dollar sign, while converting the claimed leading-strip result raises
ValueError — so the conversion is not a leading-only strip. -/
theorem c8_counterexample :
    jget (get_market_movers 10 (.ok ⟨200, some (.obj [("top_gainers", Json.arr
        [Json.obj [("ticker", Json.str "X"), ("price", Json.str "1$2")]])]), ""⟩)) "status"
      = some (.str "success") ∧
    jget (get_market_movers 10 (.ok ⟨200, some (.obj [("top_gainers", Json.arr
        [Json.obj [("ticker", Json.str "X"), ("price", Json.str "1$2")]])]), ""⟩)) "gainers"
      = some (Json.arr [Json.obj [("symbol", Json.str "X"), ("name", Json.str ""),
          ("price", Json.num ⟨12, 0⟩), ("change", Json.num ⟨0, 0⟩),
          ("change_percent", Json.num ⟨0, 0⟩), ("volume", Json.int 0)]]) ∧
    specStripLeadingDollar "1$2" = "1$2" ∧
    pyFloatStr (specStripLeadingDollar "1$2")
      = .error "ValueError: could not convert string to float: 1$2" :=
  ⟨rfl, rfl, rfl, rfl⟩

/-- C8 amended.  For every movers entry, the conversion removes every
dollar sign from the price and change fields, every percent sign from the
change percentage and every comma from the volume before numeric
conversion (str.replace removes all occurrences, not only a leading or
trailing one), and an absent field is treated as the string 0 (or 0
percent) rather than failing. -/
theorem c8_amended_replace_all_conversion (stock sym name : Json) (p c cp v : String)
    (qp qc qcp : PFloat) (nv : ℤ)
    (hsym : pyGet stock "ticker" (.str "") = .ok sym)
    (hname : pyGet stock "name" (.str "") = .ok name)
    (hp : pyGet stock "price" (.str "0") = .ok (.str p))
    (hc : pyGet stock "change_amount" (.str "0") = .ok (.str c))
    (hcp : pyGet stock "change_percentage" (.str "0%") = .ok (.str cp))
    (hv : pyGet stock "volume" (.str "0") = .ok (.str v))
    (hqp : pyFloatStr (pyStrReplace p "$" "") = .ok qp)
    (hqc : pyFloatStr (pyStrReplace c "$" "") = .ok qc)
    (hqcp : pyFloatStr (pyStrReplace cp "%" "") = .ok qcp)
    (hnv : pyIntStr (pyStrReplace v "," "") = .ok nv) :
    convMover stock = .ok (Json.obj [("symbol", sym), ("name", name), ("price", .num qp),
      ("change", .num qc), ("change_percent", .num qcp), ("volume", .int nv)]) ∧
    convMover (Json.obj []) = .ok (Json.obj [("symbol", .str ""), ("name", .str ""),
      ("price", .num ⟨0, 0⟩), ("change", .num ⟨0, 0⟩), ("change_percent", .num ⟨0, 0⟩),
      ("volume", .int 0)]) := by
  constructor
  · simp only [convMover, getReplFloat, getReplInt, hsym, hname, hp, hc, hcp, hv,
      pyReplaceStr, hqp, hqc, hqcp, hnv]
  · rfl

/-- witness for the amended C8: a concrete entry with dollar, percent and
comma decorations converts to the stated numbers. -/
theorem c8_amended_replace_all_conversion_witness :
    (pyGet (Json.obj [("ticker", Json.str "AAA"), ("name", Json.str "Alpha"),
        ("price", Json.str "$3.45"), ("change_amount", Json.str "$0.45"),
        ("change_percentage", Json.str "15.0%"), ("volume", Json.str "1,234")])
        "price" (.str "0") = .ok (.str "$3.45") ∧
      pyFloatStr (pyStrReplace "$3.45" "$" "") = .ok ⟨345, -2⟩ ∧
      pyIntStr (pyStrReplace "1,234" "," "") = .ok 1234) ∧
    convMover (Json.obj [("ticker", Json.str "AAA"), ("name", Json.str "Alpha"),
        ("price", Json.str "$3.45"), ("change_amount", Json.str "$0.45"),
        ("change_percentage", Json.str "15.0%"), ("volume", Json.str "1,234")])
      = .ok (Json.obj [("symbol", Json.str "AAA"), ("name", Json.str "Alpha"),
          ("price", .num ⟨345, -2⟩), ("change", .num ⟨45, -2⟩),
          ("change_percent", .num ⟨150, -1⟩), ("volume", .int 1234)]) ∧
    convMover (Json.obj []) = .ok (Json.obj [("symbol", .str ""), ("name", .str ""),
      ("price", .num ⟨0, 0⟩), ("change", .num ⟨0, 0⟩), ("change_percent", .num ⟨0, 0⟩),
      ("volume", .int 0)]) :=
  ⟨⟨rfl, by decide, by decide⟩,
    (c8_amended_replace_all_conversion
      (Json.obj [("ticker", Json.str "AAA"), ("name", Json.str "Alpha"),
        ("price", Json.str "$3.45"), ("change_amount", Json.str "$0.45"),
        ("change_percentage", Json.str "15.0%"), ("volume", Json.str "1,234")])
      (Json.str "AAA") (Json.str "Alpha") "$3.45" "$0.45" "15.0%" "1,234"
      ⟨345, -2⟩ ⟨45, -2⟩ ⟨150, -1⟩ 1234
      rfl rfl rfl rfl rfl rfl (by decide) (by decide) (by decide) (by decide)).1,
    (c8_amended_replace_all_conversion (Json.obj []) (Json.str "") (Json.str "")
      "0" "0" "0%" "0" ⟨0, 0⟩ ⟨0, 0⟩ ⟨0, 0⟩ 0
      rfl rfl rfl rfl rfl rfl (by decide) (by decide) (by decide) (by decide)).2⟩

/-- C9, evaluation at the failing input.  The declared default of the
topics argument is the list holding only None; it is truthy, so the query
URL built for a call that does not pass topics carries a spurious
topics=[None] parameter and the envelope echoes [None] — while an explicit
None adds no topics parameter and is echoed as None, and the ticker is
upper-cased in both the URL and the envelope. -/
theorem c9_default_topics_bug :
    newsTopicsDefault = PyVal.list [PyAtom.none] ∧
    pyTruthy newsTopicsDefault = true ∧
    newsQueryUrl "aapl" 10 newsTopicsDefault
      = "https://www.alphavantage.co/query?function=NEWS_SENTIMENT&tickers=AAPL&limit=10&apikey=demo&topics=[None]" ∧
    newsQueryUrl "aapl" 10 (PyVal.atom .none)
      = "https://www.alphavantage.co/query?function=NEWS_SENTIMENT&tickers=AAPL&limit=10&apikey=demo" ∧
    newsQueryUrl "aapl" 10 (PyVal.atom (.str "earnings"))
      = "https://www.alphavantage.co/query?function=NEWS_SENTIMENT&tickers=AAPL&limit=10&apikey=demo&topics=earnings" ∧
    jget (get_stock_news "aapl" 10 newsTopicsDefault
        (.ok ⟨200, some (.obj [("feed", Json.arr [])]), ""⟩)) "topics"
      = some (Json.arr [Json.null]) ∧
    jget (get_stock_news "aapl" 10 (PyVal.atom .none)
        (.ok ⟨200, some (.obj [("feed", Json.arr [])]), ""⟩)) "topics"
      = some Json.null ∧
    jget (get_stock_news "aapl" 10 (PyVal.atom .none)
        (.ok ⟨200, some (.obj [("feed", Json.arr [])]), ""⟩)) "ticker"
      = some (Json.str "AAPL") :=
  ⟨rfl, rfl, by decide, by decide, by decide, rfl, rfl, rfl⟩

/-- the integer produced by the two-decimal rounding is within half a unit
of 100 times the value: format2f renders the nearest second decimal (ties
to the even digit by construction). -/
theorem roundAt2_nearest (x : PFloat) : |((x.roundAt2 : ℤ) : ℚ) - x.toRat * 100| ≤ 1 / 2 := by
  obtain ⟨m, e⟩ := x
  unfold PFloat.roundAt2 PFloat.toRat
  simp only
  by_cases h : 0 ≤ e + 2
  · rw [if_pos h]
    have heq : ((m * 10 ^ (e + 2).toNat : ℤ) : ℚ) = (m : ℚ) * (10 : ℚ) ^ e * 100 := by
      push_cast
      rw [← zpow_natCast (10 : ℚ) (e + 2).toNat, Int.toNat_of_nonneg h,
        zpow_add₀ (by norm_num : (10 : ℚ) ≠ 0)]
      norm_num
      ring
    rw [heq]
    simp
  · rw [if_neg h]
    obtain ⟨k, rfl⟩ : ∃ k : ℕ, e = -(k : ℤ) - 2 := ⟨(-(e + 2)).toNat, by omega⟩
    have hkt : (-(-(k : ℤ) - 2 + 2)).toNat = k := by omega
    rw [hkt]
    have hd : (0 : ℤ) < 10 ^ k := pow_pos (by norm_num) _
    have hD : (0 : ℚ) < ((10 ^ k : ℤ) : ℚ) := by exact_mod_cast hd
    have hr0 : 0 ≤ Int.emod m (10 ^ k) := Int.emod_nonneg m (ne_of_gt hd)
    have hrd : Int.emod m (10 ^ k) < 10 ^ k := Int.emod_lt_of_pos m hd
    have hm : m = 10 ^ k * Int.ediv m (10 ^ k) + Int.emod m (10 ^ k) :=
      (Int.ediv_add_emod m _).symm
    have hval : (m : ℚ) * (10 : ℚ) ^ (-(k : ℤ) - 2) * 100
        = (Int.ediv m (10 ^ k) : ℚ) + (Int.emod m (10 ^ k) : ℚ) / ((10 ^ k : ℤ) : ℚ) := by
      have hexp : (10 : ℚ) ^ (-(k : ℤ) - 2) = ((10 : ℚ) ^ (k + 2 : ℕ))⁻¹ := by
        rw [show (-(k : ℤ) - 2) = -((k + 2 : ℕ) : ℤ) from by push_cast; ring, zpow_neg,
          zpow_natCast]
      have hmQ : (m : ℚ) = (10 : ℚ) ^ k * (Int.ediv m (10 ^ k) : ℚ)
          + (Int.emod m (10 ^ k) : ℚ) := by exact_mod_cast hm
      have hcast : ((10 ^ k : ℤ) : ℚ) = (10 : ℚ) ^ k := by push_cast; ring
      rw [hexp, hcast, hmQ]
      have hne : ((10 : ℚ) ^ k) ≠ 0 := by positivity
      have hne2 : ((10 : ℚ) ^ (k + 2 : ℕ)) ≠ 0 := by positivity
      field_simp
      ring
    rw [hval]
    have hR0 : (0 : ℚ) ≤ (Int.emod m (10 ^ k) : ℚ) := by exact_mod_cast hr0
    have hR1 : (Int.emod m (10 ^ k) : ℚ) / ((10 ^ k : ℤ) : ℚ) ≤ 1 := by
      rw [div_le_one hD]
      exact_mod_cast hrd.le
    split_ifs with h1 h2 h3
    · have hc : 2 * (Int.emod m (10 ^ k) : ℚ) ≤ ((10 ^ k : ℤ) : ℚ) := by
        exact_mod_cast le_of_lt h1
      rw [abs_sub_comm, add_sub_cancel_left, abs_of_nonneg (div_nonneg hR0 hD.le),
        div_le_iff₀ hD]
      linarith
    · have hc : ((10 ^ k : ℤ) : ℚ) ≤ 2 * (Int.emod m (10 ^ k) : ℚ) := by
        exact_mod_cast le_of_lt h2
      have hrw : ((Int.ediv m (10 ^ k) + 1 : ℤ) : ℚ)
          - ((Int.ediv m (10 ^ k) : ℚ) + (Int.emod m (10 ^ k) : ℚ) / ((10 ^ k : ℤ) : ℚ))
          = 1 - (Int.emod m (10 ^ k) : ℚ) / ((10 ^ k : ℤ) : ℚ) := by
        push_cast
        ring
      have key : 1 / 2 ≤ (Int.emod m (10 ^ k) : ℚ) / ((10 ^ k : ℤ) : ℚ) := by
        rw [le_div_iff₀ hD]
        linarith
      rw [hrw, abs_of_nonneg (by linarith)]
      linarith
    · have htie : 2 * Int.emod m (10 ^ k) = 10 ^ k := by omega
      have key : (Int.emod m (10 ^ k) : ℚ) / ((10 ^ k : ℤ) : ℚ) = 1 / 2 := by
        rw [div_eq_iff (ne_of_gt hD)]
        have : 2 * (Int.emod m (10 ^ k) : ℚ) = ((10 ^ k : ℤ) : ℚ) := by exact_mod_cast htie
        linarith
      rw [abs_sub_comm, add_sub_cancel_left, abs_of_nonneg (div_nonneg hR0 hD.le), key]
    · have htie : 2 * Int.emod m (10 ^ k) = 10 ^ k := by omega
      have key : (Int.emod m (10 ^ k) : ℚ) / ((10 ^ k : ℤ) : ℚ) = 1 / 2 := by
        rw [div_eq_iff (ne_of_gt hD)]
        have : 2 * (Int.emod m (10 ^ k) : ℚ) = ((10 ^ k : ℤ) : ℚ) := by exact_mod_cast htie
        linarith
      have hrw : ((Int.ediv m (10 ^ k) + 1 : ℤ) : ℚ)
          - ((Int.ediv m (10 ^ k) : ℚ) + (Int.emod m (10 ^ k) : ℚ) / ((10 ^ k : ℤ) : ℚ))
          = 1 - (Int.emod m (10 ^ k) : ℚ) / ((10 ^ k : ℤ) : ℚ) := by
        push_cast
        ring
      rw [hrw, key, abs_of_nonneg (by norm_num)]
      norm_num
